import Mathlib

namespace HQP

/- Shallow embedding of the profile control engine of
   muness/roon-extension-hqp-profile-switcher:
   src/extension/lib/hqp-client.js, src/extension/index.js and
   src/scripts/switch.js.  JS strings are Lean String values; a JS
   `undefined`/`null` string input is modeled as Option String or, in record
   fields where the code immediately coerces it, as "".  Case conversion is
   modeled on ASCII, which covers every identifier the program handles. -/

/- ### JS string primitives -/

/-- JS \s on the ASCII range (space, tab, newline, carriage return,
vertical tab, form feed). -/
def isWs (c : Char) : Bool :=
  c == ' ' || c == '\t' || c == '\n' || c == '\r' || c == '\x0b' || c == '\x0c'

/-- ASCII lower-casing of one character, as String.prototype.toLowerCase
acts on the ASCII range. -/
def lowerChar (c : Char) : Char :=
  if 'A' ≤ c ∧ c ≤ 'Z' then Char.ofNat (c.toNat + 32) else c

/-- ASCII upper-casing of one character. -/
def upperChar (c : Char) : Char :=
  if 'a' ≤ c ∧ c ≤ 'z' then Char.ofNat (c.toNat - 32) else c

def lowerList (cs : List Char) : List Char := cs.map lowerChar

def lowerStr (s : String) : String := String.mk (lowerList s.data)

def upperStr (s : String) : String := String.mk (s.data.map upperChar)

def trimLeft (cs : List Char) : List Char := cs.dropWhile isWs

def trimRightL (cs : List Char) : List Char := (cs.reverse.dropWhile isWs).reverse

/-- The character list underlying String.prototype.trim. -/
def trimList (cs : List Char) : List Char := trimRightL (trimLeft cs)

/-- JS String.prototype.trim. -/
def jsTrim (s : String) : String := String.mk (trimList s.data)

/-- index.js stringValue: coerce to string and trim (null/undefined give "",
which we model by passing ""). -/
def stringValue (s : String) : String := jsTrim s

/-- Is `needle` a prefix of `hay` (Boolean, for the embedding of regex
literals)? -/
def listPrefix : List Char → List Char → Bool
  | [], _ => true
  | _ :: _, [] => false
  | a :: as, b :: bs => a == b && listPrefix as bs

/-- Case-insensitive prefix test; `needle` is given in lower case. -/
def listPrefixCI : List Char → List Char → Bool
  | [], _ => true
  | _ :: _, [] => false
  | a :: as, b :: bs => a == lowerChar b && listPrefixCI as bs

/-- Does `hay` contain `needle` as a contiguous substring
(JS indexOf(...) !== -1)? -/
def listHasSub (needle : List Char) : List Char → Bool
  | [] => needle.isEmpty
  | c :: t => listPrefix needle (c :: t) || listHasSub needle t

def strHasSub (needle hay : String) : Bool := listHasSub needle.data hay.data

/-- Split a character list on a separator character (JS String.split with a
one-character separator). -/
def splitOnChar (sep : Char) : List Char → List Char → List (List Char)
  | [], acc => [acc.reverse]
  | c :: t, acc =>
    if c == sep then acc.reverse :: splitOnChar sep t []
    else splitOnChar sep t (c :: acc)

/- ### Trim idempotence -/

theorem dropWhile_self (p : Char → Bool) (l : List Char) :
    (l.dropWhile p).dropWhile p = l.dropWhile p := by
  induction l with
  | nil => rfl
  | cons a t ih =>
    by_cases h : p a
    · simp [List.dropWhile_cons, h, ih]
    · simp [List.dropWhile_cons, h]

theorem dropWhile_head_false (p : Char → Bool) (l : List Char) (c : Char) (t : List Char)
    (h : l.dropWhile p = c :: t) : p c = false := by
  induction l with
  | nil => simp at h
  | cons a l ih =>
    rw [List.dropWhile_cons] at h
    by_cases hp : p a
    · rw [if_pos hp] at h
      exact ih h
    · rw [if_neg hp] at h
      injection h with h1 _
      subst h1
      simpa using hp

theorem dropWhile_append_single (p : Char → Bool) (l : List Char) (c : Char)
    (hc : p c = false) :
    (l ++ [c]).dropWhile p = l.dropWhile p ++ [c] := by
  induction l with
  | nil => simp [List.dropWhile_cons, hc]
  | cons a t ih =>
    by_cases h : p a <;> simp [List.dropWhile_cons, h, ih]

theorem trimRightL_cons (c : Char) (t : List Char) (hc : isWs c = false) :
    trimRightL (c :: t) = c :: trimRightL t := by
  unfold trimRightL
  rw [List.reverse_cons, dropWhile_append_single isWs _ c hc]
  simp

theorem trimLeft_trimRightL_trimLeft (cs : List Char) :
    trimLeft (trimRightL (trimLeft cs)) = trimRightL (trimLeft cs) := by
  cases h : trimLeft cs with
  | nil => simp [trimRightL, trimLeft]
  | cons c t =>
    have hc : isWs c = false := dropWhile_head_false isWs cs c t h
    rw [trimRightL_cons c t hc]
    unfold trimLeft
    simp [List.dropWhile_cons, hc]

theorem trimRightL_self (cs : List Char) :
    trimRightL (trimRightL cs) = trimRightL cs := by
  unfold trimRightL
  rw [List.reverse_reverse, dropWhile_self]

theorem trimList_idem (cs : List Char) : trimList (trimList cs) = trimList cs := by
  unfold trimList
  rw [trimLeft_trimRightL_trimLeft, trimRightL_self]

theorem stringValue_idem (s : String) : stringValue (stringValue s) = stringValue s := by
  show String.mk (trimList (String.mk (trimList s.data)).data) = String.mk (trimList s.data)
  rw [show (String.mk (trimList s.data)).data = trimList s.data from rfl, trimList_idem]

theorem jsTrim_stringValue (s : String) : jsTrim (stringValue s) = stringValue s :=
  stringValue_idem s

/- ### index.js slugifyControlKey -/

def isLowerAlnum (c : Char) : Bool :=
  ('a' ≤ c ∧ c ≤ 'z') || ('0' ≤ c ∧ c ≤ '9')

/-- The replace(/[^a-z0-9]+/g, "-") pass: every maximal run of non-alphanumeric
characters becomes one dash.  The flag records whether the previous emitted
character was a dash from such a run. -/
def slugCore : List Char → Bool → List Char
  | [], _ => []
  | c :: t, lastDash =>
    if isLowerAlnum c then c :: slugCore t false
    else if lastDash then slugCore t true
    else '-' :: slugCore t true

def stripDashes (cs : List Char) : List Char :=
  ((cs.dropWhile (fun c => c == '-')).reverse.dropWhile (fun c => c == '-')).reverse

/-- index.js slugifyControlKey: lower-case the trimmed text, collapse
non-alphanumeric runs to single dashes, strip leading/trailing dashes. -/
def slugifyControlKey (raw : String) : String :=
  let text := lowerStr (stringValue raw)
  if text == "" then ""
  else String.mk (stripDashes (slugCore text.data false))

/- ### Profiles -/

/-- A scraped profile entry ({value, title} in hqp-client.js).  A missing
value/title is modeled as "" (the code only ever tests them for JS
truthiness, where "" and undefined agree). -/
structure Profile where
  value : String
  title : String
deriving DecidableEq

/- ### hqp-client.js HTML scraping -/

/-- One position of the getAttribute regex
`attr\s*=\s*(?:"([^"]*)"|'([^']*)'|([^\s>]+))` (case-insensitive, `attr` given
lower-case): if the pattern matches starting here, return the captured value
(which is "" for an empty quoted value). -/
def captureUntil (q : Char) : List Char → Option (List Char)
  | [] => none
  | c :: t =>
    if c == q then some []
    else match captureUntil q t with
      | some v => some (c :: v)
      | none => none

def tryAttrAt (attr : List Char) (cs : List Char) : Option (List Char) :=
  if listPrefixCI attr cs then
    let r := (cs.drop attr.length).dropWhile isWs
    match r with
    | '=' :: r2 =>
      let r3 := r2.dropWhile isWs
      match r3 with
      | '"' :: r4 =>
        -- the double-quoted alternative; on an unterminated quote the regex
        -- engine falls through to the unquoted alternative, which then
        -- captures from the quote character on
        (match captureUntil '"' r4 with
         | some v => some v
         | none => some (r3.takeWhile (fun c => !(isWs c) && c != '>')))
      | '\'' :: r4 =>
        (match captureUntil '\'' r4 with
         | some v => some v
         | none => some (r3.takeWhile (fun c => !(isWs c) && c != '>')))
      | _ =>
        let tok := r3.takeWhile (fun c => !(isWs c) && c != '>')
        if tok.isEmpty then none else some tok
    | _ => none
  else none

def getAttrAux (attr : List Char) : List Char → Option (List Char)
  | [] => none
  | c :: t =>
    match tryAttrAt attr (c :: t) with
    | some v => some v
    | none => getAttrAux attr t

/-- hqp-client.js getAttribute: first match of the attribute regex in the tag,
with the group fall-through (all-empty groups give ""). -/
def getAttribute (tag attrName : String) : String :=
  match getAttrAux (lowerList attrName.data) tag.data with
  | some v => String.mk v
  | none => ""

/-- Split a tag region at the first '>': returns (chars before it, chars
after it), or none when there is no '>'. -/
def splitTagAt : List Char → Option (List Char × List Char)
  | [] => none
  | c :: t =>
    if c == '>' then some ([], t)
    else match splitTagAt t with
      | some (r, rest) => some (c :: r, rest)
      | none => none

theorem splitTagAt_rest_lt (cs r rest : List Char) (h : splitTagAt cs = some (r, rest)) :
    rest.length < cs.length := by
  induction cs generalizing r rest with
  | nil => simp [splitTagAt] at h
  | cons c t ih =>
    rw [splitTagAt] at h
    by_cases hc : c == '>'
    · rw [if_pos hc] at h
      injection h with h1
      injection h1 with _ h2
      subst h2
      simp
    · rw [if_neg hc] at h
      cases h2 : splitTagAt t with
      | none => rw [h2] at h; simp at h
      | some pr =>
        rw [h2] at h
        injection h with h1
        injection h1 with _ h3
        subst h3
        exact Nat.lt_trans (ih pr.1 pr.2 (by rw [h2])) (by simp)

/-- Character class `[^"'>\s]` of the name capture in the hidden-input regex. -/
def nameTokenChar (c : Char) : Bool :=
  c != '"' && c != '\'' && c != '>' && !(isWs c)

/-- Does `name\s*=\s*["']([^"'>\s]+)["']` match starting at this position?
Returns the captured (non-empty) token when it does. -/
def nameMatchAt (cs : List Char) : Option (List Char) :=
  if listPrefixCI ("name".data) cs then
    let r := (cs.drop 4).dropWhile isWs
    match r with
    | '=' :: r2 =>
      let r3 := r2.dropWhile isWs
      match r3 with
      | q :: r4 =>
        if q == '"' || q == '\'' then
          let tok := r4.takeWhile nameTokenChar
          if tok.isEmpty then none
          else match r4.drop tok.length with
            | q2 :: _ => if q2 == '"' || q2 == '\'' then some tok else none
            | [] => none
        else none
      | [] => none
    | _ => none
  else none

/-- Latest position in the tag region at which the quoted name pattern
matches: the greedy `[^>]*` before it makes the regex capture the last
matchable name attribute. -/
def lastNameIn : List Char → Option (List Char)
  | [] => none
  | c :: t =>
    match lastNameIn t with
    | some v => some v
    | none => nameMatchAt (c :: t)

/-- Global scan of `/<input[^>]*name\s*=\s*["']([^"'>\s]+)["'][^>]*>/gi`:
yields (captured name, whole matched tag) pairs.  Each match runs from an
occurrence of `<input` to the first '>' after it; scanning resumes after that
'>'.  `fuel` bounds the recursion (the scanned suffix strictly shrinks, so
`cs.length` steps always suffice). -/
def inputMatchesAux (fuel : Nat) (cs : List Char) : List (String × String) :=
  match fuel with
  | 0 => []
  | fuel + 1 =>
    match cs with
    | [] => []
    | c :: t =>
      if listPrefixCI ("<input".data) (c :: t) then
        match splitTagAt (c :: t) with
        | some (region, rest) =>
          (match lastNameIn region with
           | some nm =>
             (String.mk nm, String.mk (region ++ ['>'])) :: inputMatchesAux fuel rest
           | none => inputMatchesAux fuel t)
        | none => []
      else inputMatchesAux fuel t

def inputMatches (cs : List Char) : List (String × String) :=
  inputMatchesAux cs.length cs

/-- Insertion-ordered, last-write-wins object assignment (JS `obj[k] = v`). -/
def objSet (obj : List (String × String)) (k v : String) : List (String × String) :=
  if obj.any (fun p => p.1 == k) then
    obj.map (fun p => if p.1 == k then (k, v) else p)
  else obj ++ [(k, v)]

/-- hqp-client.js parseHiddenInputs: every matched input tag whose type
attribute is hidden, or whose captured name is "_xsrf", contributes
name → value (value defaults to ""). -/
def parseHiddenInputs (html : String) : List (String × String) :=
  (inputMatches html.data).foldl
    (fun payload m =>
      let name := m.1
      let tag := m.2
      let ty := lowerStr (getAttribute tag "type")
      if ty == "hidden" || name == "_xsrf" then
        objSet payload name (getAttribute tag "value")
      else payload)
    []

/-- Does `name\s*=\s*["']profile["']` (whole regex case-insensitive) match at
this position? -/
def selectNameAt (cs : List Char) : Bool :=
  listPrefixCI ("name".data) cs &&
    (match (cs.drop 4).dropWhile isWs with
     | '=' :: r2 =>
       (match r2.dropWhile isWs with
        | q :: r4 =>
          (q == '"' || q == '\'') && listPrefixCI ("profile".data) r4 &&
            (match r4.drop 7 with
             | q2 :: _ => q2 == '"' || q2 == '\''
             | [] => false)
        | [] => false)
     | _ => false)

def anyPosSelectName : List Char → Bool
  | [] => false
  | c :: t => selectNameAt (c :: t) || anyPosSelectName t

/-- Lazy `([\s\S]*?)` up to the first case-insensitive occurrence of `needle`
(given lower-case): the text before it, or none when absent. -/
def takeUntilCI (needle : List Char) : List Char → Option (List Char)
  | [] => none
  | c :: t =>
    if listPrefixCI needle (c :: t) then some []
    else match takeUntilCI needle t with
      | some v => some (c :: v)
      | none => none

/-- First match of
`/<select[^>]*name\s*=\s*["']profile["'][^>]*>([\s\S]*?)<\/select>/i`:
the content between the first matching select open tag and the first
following `</select>`. -/
def findSelectContent : List Char → Option (List Char)
  | [] => none
  | c :: t =>
    if listPrefixCI ("<select".data) (c :: t) then
      match splitTagAt (c :: t) with
      | some (region, rest) =>
        if anyPosSelectName region then
          match takeUntilCI ("</select>".data) rest with
          | some content => some content
          | none => findSelectContent t
        else findSelectContent t
      | none => none
    else findSelectContent t

/-- Global scan of `/<option([^>]*)>([\s\S]*?)<\/option>/gi` over the select
content: yields (whole match, inner text) pairs. -/
def optionMatchesAux (fuel : Nat) (cs : List Char) : List (List Char × List Char) :=
  match fuel with
  | 0 => []
  | fuel + 1 =>
    match cs with
    | [] => []
    | c :: t =>
      if listPrefixCI ("<option".data) (c :: t) then
        match splitTagAt (c :: t) with
        | some (region, rest) =>
          (match takeUntilCI ("</option>".data) rest with
           | some inner =>
             let closeTag := (rest.drop inner.length).take 9
             (region ++ '>' :: (inner ++ closeTag), inner)
               :: optionMatchesAux fuel (rest.drop (inner.length + 9))
           | none => optionMatchesAux fuel t)
        | none => []
      else optionMatchesAux fuel t

def optionMatches (cs : List Char) : List (List Char × List Char) :=
  optionMatchesAux cs.length cs

/-- The replace(/\s+/g, " ") pass on option inner text. -/
def collapseWs : List Char → Bool → List Char
  | [], _ => []
  | c :: t, lastWs =>
    if isWs c then
      if lastWs then collapseWs t true else ' ' :: collapseWs t true
    else c :: collapseWs t false

/-- hqp-client.js parseProfiles. -/
def parseProfiles (html : String) : List Profile :=
  match findSelectContent html.data with
  | none => []
  | some content =>
    (optionMatches content).map (fun m =>
      let text := String.mk (trimList (collapseWs m.2 false))
      let va := getAttribute (String.mk m.1) "value"
      let value := if va == "" then text else va
      { value := value
        title := if text != "" then text else if value != "" then value else "[default]" })

/- ### hqp-client.js digest session -/

structure Digest where
  realm : String
  nonce : String
  qop : String
  opaqueVal : String
  algorithm : String
  nc : Nat
deriving DecidableEq

/-- Split a challenge chunk at its first '='; none when there is no '='
(the chunk is then skipped). -/
def splitEq : List Char → Option (List Char × List Char)
  | [] => none
  | c :: t =>
    if c == '=' then some ([], t)
    else match splitEq t with
      | some (a, b) => some (c :: a, b)
      | none => none

/-- The replace(/^"|"$/g, "") pass: strip one leading and one trailing
double quote. -/
def unquote (cs : List Char) : List Char :=
  let s1 := match cs with
    | '"' :: t => t
    | _ => cs
  if s1.getLast? == some '"' then s1.dropLast else s1

/-- JS object lookup over assignments done in order (later keys overwrite). -/
def digestLookup (parts : List (String × String)) (k : String) : String :=
  match parts.reverse.find? (fun p => p.1 == k) with
  | some p => p.2
  | none => ""

/-- The replace(/^Digest\s+/i, "") pass. -/
def stripDigestPrefix (cs : List Char) : List Char :=
  if listPrefixCI ("digest".data) cs then
    match cs.drop 6 with
    | c :: t => if isWs c then (c :: t).dropWhile isWs else cs
    | [] => cs
  else cs

/-- hqp-client.js parseDigest.  Splitting on "," then trimming each key and
value is equivalent to the source's split(/,\s*/) followed by the same trims.
Unknown fields end up in `parts` but are never read; the request counter is
reset to 0. -/
def parseDigest (header : String) : Digest :=
  let challenge := stripDigestPrefix header.data
  let chunks := splitOnChar ',' challenge []
  let parts := chunks.foldl (fun acc chunk =>
    match splitEq chunk with
    | none => acc
    | some (k, v) =>
      acc ++ [(String.mk (trimList k), String.mk (unquote (trimList v)))]) []
  let algo := digestLookup parts "algorithm"
  { realm := digestLookup parts "realm"
    nonce := digestLookup parts "nonce"
    qop := digestLookup parts "qop"
    opaqueVal := digestLookup parts "opaque"
    algorithm := upperStr (if algo == "" then "MD5" else algo)
    nc := 0 }

/-- JS Number.prototype.toString(16) for naturals (lower-case hex). -/
def hexStr (n : Nat) : String := String.mk (Nat.toDigits 16 n)

/-- JS String.prototype.padStart(8, "0"). -/
def padStart8 (s : String) : String :=
  String.mk (List.replicate (8 - s.length) '0') ++ s

/-- The pieces of one computed Authorization header: the embedded nc field,
the embedded response digest, and the assembled header string. -/
structure DigestHeaderParts where
  ncStr : String
  response : String
  header : String
deriving DecidableEq

/-- hqp-client.js buildDigestHeader.  `md5` abstracts crypto MD5 and `cnonce`
the random client nonce; the mutation of this.digest.nc is returned as the
updated digest state.  A missing digest or empty nonce yields no header (the
source returns ""). -/
def buildDigestHeader (md5 : String → String) (username password method uri cnonce : String) :
    Option Digest → Option DigestHeaderParts × Option Digest
  | none => (none, none)
  | some d =>
    if d.nonce == "" then (none, some d)
    else
      let d2 : Digest := { d with nc := d.nc + 1 }
      let nc := padStart8 (hexStr d2.nc)
      let ha1 :=
        if d.algorithm == "MD5-SESS" then
          md5 (md5 (username ++ ":" ++ d.realm ++ ":" ++ password) ++ ":" ++ d.nonce ++ ":" ++ cnonce)
        else md5 (username ++ ":" ++ d.realm ++ ":" ++ password)
      let ha2 := md5 (method ++ ":" ++ uri)
      if d.qop != "" then
        let qopValue := jsTrim (((splitOnChar ',' d.qop.data []).map String.mk).headD "")
        let response :=
          md5 (ha1 ++ ":" ++ d.nonce ++ ":" ++ nc ++ ":" ++ cnonce ++ ":" ++ qopValue ++ ":" ++ ha2)
        let header :=
          "Digest username=\"" ++ username ++ "\", realm=\"" ++ d.realm ++ "\", nonce=\"" ++
            d.nonce ++ "\", uri=\"" ++ uri ++ "\", algorithm=" ++ d.algorithm ++
            ", response=\"" ++ response ++ "\", qop=" ++ qopValue ++ ", nc=" ++ nc ++
            ", cnonce=\"" ++ cnonce ++ "\"" ++
            (if d.opaqueVal != "" then ", opaque=\"" ++ d.opaqueVal ++ "\"" else "")
        (some ⟨nc, response, header⟩, some d2)
      else
        let response := md5 (ha1 ++ ":" ++ d.nonce ++ ":" ++ ha2)
        let header :=
          "Digest username=\"" ++ username ++ "\", realm=\"" ++ d.realm ++ "\", nonce=\"" ++
            d.nonce ++ "\", uri=\"" ++ uri ++ "\", algorithm=" ++ d.algorithm ++
            ", response=\"" ++ response ++ "\"" ++
            (if d.opaqueVal != "" then ", opaque=\"" ++ d.opaqueVal ++ "\"" else "")
        (some ⟨nc, response, header⟩, some d2)

/-- Repeated authenticated requests under one cached challenge: the headers
produced by successive buildDigestHeader calls, threading the counter. -/
def digestSequence (md5 : String → String) (username password method uri : String)
    (cnonces : List String) (d : Digest) : List DigestHeaderParts :=
  match cnonces with
  | [] => []
  | cn :: rest =>
    match buildDigestHeader md5 username password method uri cn (some d) with
    | (some parts, some d2) => parts :: digestSequence md5 username password method uri rest d2
    | _ => []

/-- Modelled from the spec (§4.1 item 4): the RFC 2617 response definition the
claims compare against.  `hash` abstracts MD5; `qopValue` is the qop directive
the client selected from the challenge (empty when none was offered). -/
def rfcDigestResponse (hash : String → String)
    (username realm password nonce ncStr cnonce qopValue method uri algorithm : String) : String :=
  let ha1 :=
    if algorithm == "MD5-SESS" then
      hash (hash (username ++ ":" ++ realm ++ ":" ++ password) ++ ":" ++ nonce ++ ":" ++ cnonce)
    else hash (username ++ ":" ++ realm ++ ":" ++ password)
  let ha2 := hash (method ++ ":" ++ uri)
  if qopValue != "" then
    hash (ha1 ++ ":" ++ nonce ++ ":" ++ ncStr ++ ":" ++ cnonce ++ ":" ++ qopValue ++ ":" ++ ha2)
  else hash (ha1 ++ ":" ++ nonce ++ ":" ++ ha2)

structure HttpResponse where
  statusCode : Nat
  wwwAuthenticate : Option String
  setCookies : List String
  body : String
deriving DecidableEq

/-- hqp-client.js collectCookies, one raw Set-Cookie value: take the part
before ';', split on '=', and store name.trim() → value.trim() when the
(untrimmed) name is non-empty and a value part exists. -/
def cookieFromRaw (jar : List (String × String)) (raw : String) : List (String × String) :=
  let cookie := (splitOnChar ';' raw.data []).headD []
  match splitOnChar '=' cookie [] with
  | name :: value :: _ =>
    if String.mk name != "" then
      objSet jar (jsTrim (String.mk name)) (jsTrim (String.mk value))
    else jar
  | _ => jar

def collectCookies (jar : List (String × String)) (raws : List String) : List (String × String) :=
  raws.foldl cookieFromRaw jar

structure Client where
  username : String
  password : String
  cookies : List (String × String)
  digest : Option Digest
deriving DecidableEq

/-- A record of one `request` call: the Authorization pieces attached to the
initial request and (when one happened) to the single retry, plus the
response handed back and the final session state. -/
structure RequestTrace where
  sentAuth1 : Option DigestHeaderParts
  retried : Bool
  sentAuth2 : Option DigestHeaderParts
  response : HttpResponse
  client : Client
deriving DecidableEq

/-- The /digest/i test on the WWW-Authenticate header. -/
def digestOffered (r : HttpResponse) : Bool :=
  match r.wwwAuthenticate with
  | some h => listHasSub ("digest".data) (lowerList h.data)
  | none => false

/-- hqp-client.js request.  `net1`/`net2` are the responses the network gives
the first and (when issued) second request; `cn1`/`cn2` the random client
nonces.  Cookies from every response are merged before the next step; on a
401 with a Digest challenge the same request is retried exactly once with a
freshly parsed challenge, and whatever the retry returns is handed back. -/
def request (c : Client) (method path : String) (md5 : String → String)
    (cn1 cn2 : String) (net1 net2 : HttpResponse) : RequestTrace :=
  let b1 := buildDigestHeader md5 c.username c.password method path cn1 c.digest
  let c1 : Client := { c with digest := b1.2 }
  let c2 : Client := { c1 with cookies := collectCookies c1.cookies net1.setCookies }
  if net1.statusCode == 401 && digestOffered net1 then
    match net1.wwwAuthenticate with
    | some h =>
      let d := parseDigest h
      let b2 := buildDigestHeader md5 c.username c.password method path cn2 (some d)
      let c3 : Client :=
        { c2 with digest := b2.2, cookies := collectCookies c2.cookies net2.setCookies }
      { sentAuth1 := b1.1, retried := true, sentAuth2 := b2.1, response := net2, client := c3 }
    | none =>
      { sentAuth1 := b1.1, retried := false, sentAuth2 := none, response := net1, client := c2 }
  else { sentAuth1 := b1.1, retried := false, sentAuth2 := none, response := net1, client := c2 }

/-- hqp-client.js fetchProfileForm: a status ≥ 400 on the (possibly retried)
response is thrown with this message. -/
def fetchFormError (r : HttpResponse) : Option String :=
  if 400 ≤ r.statusCode then
    some ("Failed to load profile form (" ++ toString r.statusCode ++ ").")
  else none

/- ### index.js configuration and error classification -/

def DEFAULT_PORT : Nat := 8088

structure Config where
  host : String
  port : Nat
  username : String
  password : String
  profile : String
deriving DecidableEq

/-- index.js normalizePort, on the numeric values the model passes around. -/
def normalizePort (n : Nat) : Nat := if 0 < n then n else DEFAULT_PORT

/-- index.js normalizeSettings. -/
def normalizeSettings (values : Config) : Config :=
  let profileValue := stringValue values.profile
  { host := stringValue values.host
    port := normalizePort values.port
    username := stringValue values.username
    password := stringValue values.password
    profile := if slugifyControlKey profileValue == "default" then "" else profileValue }

def hasRequiredCredentials (cfg : Config) : Bool :=
  cfg.host != "" && cfg.username != "" && cfg.password != ""

def MISSING_CREDENTIALS_MESSAGE : String :=
  "Awaiting HQPlayer credentials. Enter host, username, and password, then press Save to connect."

/-- A thrown JS error as the engine sees it: a code (ECONNREFUSED, ENOTFOUND,
EAI_AGAIN, or empty) and a message. -/
structure JsError where
  code : String
  message : String
deriving DecidableEq

/-- index.js friendlyErrorMessage. -/
def friendlyErrorMessage (error : JsError) (candidate : Config) : String :=
  let cfg := normalizeSettings candidate
  if !(hasRequiredCredentials cfg) then MISSING_CREDENTIALS_MESSAGE
  else if error.code == "ECONNREFUSED" then
    "Cannot reach HQPlayer at " ++ cfg.host ++ ":" ++ toString cfg.port ++ "."
  else if error.code == "ENOTFOUND" then "Unable to resolve host " ++ cfg.host ++ "."
  else if error.code == "EAI_AGAIN" then "DNS lookup failed for " ++ cfg.host ++ "."
  else
    let trimmedMessage := jsTrim error.message
    if strHasSub "401" trimmedMessage then
      "Authentication failed. Verify HQPlayer username and password."
    else if strHasSub "ECONNREFUSED" trimmedMessage then
      "Cannot reach HQPlayer at " ++ cfg.host ++ ":" ++ toString cfg.port ++ "."
    else if strHasSub "ENOTFOUND" trimmedMessage then
      "Unable to resolve host " ++ cfg.host ++ "."
    else if strHasSub "EAI_AGAIN" trimmedMessage then
      "DNS lookup failed for " ++ cfg.host ++ "."
    else if strHasSub "Failed to load profile form" trimmedMessage then
      "Unable to load HQPlayer profile list from " ++ cfg.host ++ ":" ++ toString cfg.port ++ "."
    else if strHasSub "Profile load request failed" trimmedMessage then
      "Failed to load profile on HQPlayer at " ++ cfg.host ++ ":" ++ toString cfg.port ++ "."
    else if strHasSub "Host is required" trimmedMessage ||
        strHasSub "Username is required" trimmedMessage ||
        strHasSub "Password is required" trimmedMessage then
      MISSING_CREDENTIALS_MESSAGE
    else if trimmedMessage != "" && trimmedMessage != "[object Object]" then trimmedMessage
    else "Unexpected error contacting HQPlayer."

/- ### index.js restart-grace status handling -/

def waitingForRestartMessage : String :=
  "Waiting for HQPlayer to restart after profile change..."

/-- index.js isRestartGraceActive, with `Date.now()` passed explicitly. -/
def isRestartGraceActive (expectedRestartUntil now : Nat) : Bool :=
  expectedRestartUntil != 0 && now < expectedRestartUntil

/-- index.js isConnectivityErrorMessage. -/
def isConnectivityErrorMessage (message : String) : Bool :=
  message != "" &&
    (strHasSub "cannot reach hqplayer" (lowerStr message) ||
     strHasSub "unable to load hqplayer" (lowerStr message) ||
     strHasSub "failed to load profile on hqplayer" (lowerStr message) ||
     strHasSub "unable to resolve host" (lowerStr message) ||
     strHasSub "dns lookup failed" (lowerStr message))

/-- index.js normalizeStatus. -/
def normalizeStatus (expectedRestartUntil now : Nat) (message : String) (isError : Bool) :
    String × Bool :=
  if isError && isRestartGraceActive expectedRestartUntil now &&
      isConnectivityErrorMessage message then
    (waitingForRestartMessage, false)
  else (message, isError)

def entryValueOrTitleMatch (lowered : String) (entry : Profile) : Bool :=
  (entry.value != "" && lowerStr entry.value == lowered) ||
    (entry.title != "" && lowerStr entry.title == lowered)

/-- index.js findProfile.  A JS null/undefined `value` is `none`; an empty
trimmed target looks for a profile with an empty value (the source's second
clause, !entry.value, coincides with value = "" in this model). -/
def findProfile (profiles : List Profile) (value : Option String) : Option Profile :=
  match value with
  | none => none
  | some v =>
    let target := jsTrim v
    if target == "" then profiles.find? (fun entry => entry.value == "")
    else profiles.find? (entryValueOrTitleMatch (lowerStr target))

/-- scripts/switch.js normalizeProfileValue. -/
def normalizeProfileValue (value : Option String) : Option String :=
  match value with
  | none => none
  | some s =>
    let trimmed := jsTrim s
    if trimmed == "" then none else some trimmed

/-- scripts/switch.js usable-profile filter. -/
def usableFilter (profiles : List Profile) : List Profile :=
  profiles.filter (fun entry =>
    match normalizeProfileValue (some entry.value) with
    | none => false
    | some v => lowerStr v != "default")

/-- scripts/switch.js targetProfile search over the usable set. -/
def switchFind (usable : List Profile) (desired : String) : Option Profile :=
  usable.find? (fun entry =>
    let lowered := lowerStr desired
    (match normalizeProfileValue (some entry.value) with
     | some v => lowerStr v == lowered
     | none => false) ||
    (if entry.title != "" then lowerStr (jsTrim entry.title) == lowered else false))

/-- scripts/switch.js resolution: match over the usable set, then the "sda"
fallback, then the first usable profile; none models the thrown
"No profiles are available to load." (after which no load is attempted). -/
def switchResolve (profiles : List Profile) (requested : Option String) : Option Profile :=
  let usable := usableFilter profiles
  let matched :=
    match normalizeProfileValue requested with
    | some desired => switchFind usable desired
    | none => none
  match matched with
  | some t => some t
  | none =>
    match usable.find? (fun entry =>
      match normalizeProfileValue (some entry.value) with
      | some v => lowerStr v == "sda"
      | none => false) with
    | some s => some s
    | none => usable.head?

/- ### index.js control surface synchronizer -/

inductive CStatus
  | selected
  | deselected
  | indeterminate
deriving DecidableEq

/-- One sourceControlDevices entry: the bound profile value (normalized) and
the last status pushed to the endpoint.  The Roon device object itself and
the display title carry no engine state and are omitted. -/
structure DeviceEntry where
  value : String
  status : CStatus
deriving DecidableEq

/-- The synchronizer's mutable module state.  The model assumes a Roon core
is connected and the source-control service is registered, so
initializeSourceControl always runs its body. -/
structure SyncState where
  config : Config
  availableProfiles : List Profile
  currentProfileValue : String
  expectedRestartUntil : Nat
  devices : List (String × DeviceEntry)
deriving DecidableEq

/-- index.js profileValueKeyFromValue. -/
def profileValueKeyFromValue (value : String) : String :=
  let normalized := stringValue value
  if normalized == "" then "__default__" else lowerStr normalized

/-- index.js profileValueKey. -/
def profileValueKey (p : Profile) : String := profileValueKeyFromValue p.value

/-- index.js profileValueRaw. -/
def profileValueRaw (p : Profile) : String := stringValue p.value

/-- index.js profileHasValue. -/
def profileHasValue (p : Profile) : Bool :=
  let value := stringValue p.value
  if value == "" then false
  else
    let slug := slugifyControlKey value
    slug != "" && slug != "default"

/-- index.js determineControlStatus (the value argument arrives already
normalized by the callers, exactly as in buildControlState). -/
def determineControlStatus (cfg : Config) (current : String) (value : String) : CStatus :=
  if !(hasRequiredCredentials cfg) then .indeterminate
  else if value == current then .selected
  else .deselected

/-- index.js updateDeviceStateByKey: recompute the entry at `key` from its
(or the overriding) value, applying a status override when one is given.
A missing key changes nothing. -/
def updateDeviceStateByKey (cfg : Config) (current : String)
    (devices : List (String × DeviceEntry)) (key : String)
    (ovStatus : Option CStatus) (ovValue : Option String) :
    List (String × DeviceEntry) :=
  devices.map (fun e =>
    if e.1 == key then
      let baseValue :=
        match ovValue with
        | some v => stringValue v
        | none => stringValue e.2.value
      let computed := determineControlStatus cfg current baseValue
      (e.1, { value := baseValue
              status := match ovStatus with
                        | some o => o
                        | none => computed })
    else e)

/-- index.js updateSourceControlSelections: refresh every entry from the
authoritative current value. -/
def updateSelections (cfg : Config) (current : String)
    (devices : List (String × DeviceEntry)) : List (String × DeviceEntry) :=
  devices.map (fun e =>
    let baseValue := stringValue e.2.value
    (e.1, { value := baseValue
            status := determineControlStatus cfg current baseValue }))

/-- The desired Map built in ensureProfileControls: JS Map insertion order
with a later duplicate key replacing the stored profile in place. -/
def dedupeByKey (profiles : List Profile) : List (String × Profile) :=
  profiles.foldl (fun acc p =>
    if acc.any (fun q => q.1 == profileValueKey p) then
      acc.map (fun q => if q.1 == profileValueKey p then (profileValueKey p, p) else q)
    else acc ++ [(profileValueKey p, p)]) []

/-- One iteration of ensureProfileControls' loop over the desired map: an
existing device for the key is refreshed via updateDeviceStateByKey, a
missing one is created with buildControlState's status. -/
def ensureStep (cfg : Config) (current : String)
    (devs : List (String × DeviceEntry)) (kp : String × Profile) :
    List (String × DeviceEntry) :=
  let v := profileValueRaw kp.2
  if devs.any (fun e => e.1 == kp.1) then
    updateDeviceStateByKey cfg current devs kp.1 none (some v)
  else
    devs ++ [(kp.1, { value := stringValue v
                      status := determineControlStatus cfg current (stringValue v) })]

/-- index.js ensureProfileControls: without credentials every device is
destroyed; otherwise devices not in the desired set are destroyed, existing
ones are refreshed, and new ones are created. -/
def ensureProfileControls (cfg : Config) (current : String) (profiles : List Profile)
    (devices : List (String × DeviceEntry)) : List (String × DeviceEntry) :=
  if !(hasRequiredCredentials cfg) then []
  else
    let desired := dedupeByKey profiles
    let kept := devices.filter (fun e => desired.any (fun q => q.1 == e.1))
    desired.foldl (ensureStep cfg current) kept

/-- index.js initializeSourceControl (with a core present):
ensureProfileControls then updateSourceControlSelections. -/
def initializeSourceControl (cfg : Config) (current : String) (profiles : List Profile)
    (devices : List (String × DeviceEntry)) : List (String × DeviceEntry) :=
  updateSelections cfg current (ensureProfileControls cfg current profiles devices)

/-- index.js recordSourceControlProfileChange with an explicit status (its
callers always pass one). -/
def recordProfileChange (s : SyncState) (p : Profile) (status : CStatus) (persist : Bool) :
    SyncState :=
  let devs0 := ensureProfileControls s.config s.currentProfileValue s.availableProfiles s.devices
  let value := profileValueRaw p
  let key := profileValueKey p
  let cfg := if persist && s.config.profile != value then
      { s.config with profile := value }
    else s.config
  let devs1 := updateSelections cfg value devs0
  let devs2 := updateDeviceStateByKey cfg value devs1 key (some status) (some value)
  { s with config := cfg, currentProfileValue := value, devices := devs2 }

/-- Oracle for one fetchProfiles network exchange. -/
inductive FetchOutcome
  | fail (e : JsError)
  | ok (profiles : List Profile)
deriving DecidableEq

instance {ε α : Type} [DecidableEq ε] [DecidableEq α] : DecidableEq (Except ε α) := fun a b =>
  match a, b with
  | .ok x, .ok y => if h : x = y then isTrue (by rw [h]) else isFalse (by simp [h])
  | .error x, .error y => if h : x = y then isTrue (by rw [h]) else isFalse (by simp [h])
  | .ok _, .error _ => isFalse (by simp)
  | .error _, .ok _ => isFalse (by simp)

/-- Result of one testConnection call: the state it leaves behind, the
returned (candidate, selectedProfile) or thrown error, and whether a
client.loadProfile request was issued. -/
structure TCResult where
  state : SyncState
  result : Except JsError (Config × Option Profile)
  loadAttempted : Bool
deriving DecidableEq

/-- The selected-profile resolution inside testConnection: findProfile on the
raw list, else the raw-list "sda" fallback, else the first raw profile. -/
def tcSelect (profiles : List Profile) (candProfile : String) : Option Profile :=
  match findProfile profiles (some candProfile) with
  | some p => some p
  | none =>
    match profiles.find? (fun entry =>
      entry.value != "" && lowerStr entry.value == "sda") with
    | some p => some p
    | none => profiles.head?

/-- index.js testConnection.  `fetch` is the fetchProfiles outcome,
`submitOk`/`submitErr` the loadProfile outcome, `now` the Date.now() value at
the load, `grace` PROFILE_RESTART_GRACE_MS. -/
def testConnection (s : SyncState) (base : Config) (loadProfile : Bool)
    (fetch : FetchOutcome) (submitOk : Bool) (submitErr : JsError)
    (now grace : Nat) : TCResult :=
  let candidate := normalizeSettings base
  if !(hasRequiredCredentials candidate) then
    { state := { s with availableProfiles := [] }
      result := .error ⟨"", MISSING_CREDENTIALS_MESSAGE⟩
      loadAttempted := false }
  else
    match fetch with
    | .fail e =>
      { state := { s with availableProfiles := [] }
        result := .error e
        loadAttempted := false }
    | .ok profiles =>
      let s1 := { s with availableProfiles := profiles, expectedRestartUntil := 0 }
      let selectedProfile := tcSelect profiles candidate.profile
      let candidate2 :=
        { candidate with
          profile := match selectedProfile with
                     | some p => p.value
                     | none => "" }
      match loadProfile, selectedProfile with
      | true, some p =>
        if submitOk then
          let s2 := { s1 with expectedRestartUntil := now + grace }
          { state := recordProfileChange s2 p .selected false
            result := .ok (candidate2, selectedProfile)
            loadAttempted := true }
        else
          { state := { s1 with availableProfiles := [] }
            result := .error submitErr
            loadAttempted := true }
      | _, _ =>
        { state := s1, result := .ok (candidate2, selectedProfile), loadAttempted := false }

/-- Commit step shared by refreshProfiles' success path: adopt the candidate
config and the resolved profile and reinitialize the controls. -/
def commitCandidate (r : TCResult) (candidate : Config) : SyncState :=
  let s1 := { r.state with
              config := candidate
              currentProfileValue := stringValue candidate.profile }
  { s1 with devices := initializeSourceControl s1.config s1.currentProfileValue
                s1.availableProfiles s1.devices }

/-- index.js refreshProfiles: testConnection without load, then commit the
candidate and reinitialize; the Boolean records success (a thrown error
propagates to the caller). -/
def refreshCommit (r : TCResult) : SyncState × Bool :=
  match r.result with
  | .ok (candidate, _) => (commitCandidate r candidate, true)
  | .error _ => (r.state, false)

def refreshProfilesOp (s : SyncState) (fetch : FetchOutcome) : SyncState × Bool :=
  refreshCommit (testConnection s s.config false fetch true ⟨"", ""⟩ 0 0)

/-- index.js resolveProfileForValue composed with findProfile, as
lookupProfileForValue computes it. -/
def lookupProfileForValue (profiles : List Profile) (value : String) : Profile :=
  let normalized := stringValue value
  match findProfile profiles (some normalized) with
  | some p => p
  | none =>
    { value := normalized
      title := if normalized != "" then normalized else "Unnamed profile" }

/-- index.js loadProfileByValue on the source-control selection path
(originLabel and sourceStatus "selected").  The error value carries the state
at the moment of the throw; on success the state after
recordSourceControlProfileChange is returned. -/
def loadProfileByValueSel (s : SyncState) (value : String) (fetch : FetchOutcome)
    (submitOk : Bool) (now grace : Nat) : Except SyncState SyncState :=
  if !(hasRequiredCredentials s.config) then .error s
  else
    let normalized := jsTrim value
    let afterProfiles : SyncState × Option (List Profile) :=
      match s.availableProfiles with
      | [] =>
        match refreshProfilesOp s fetch with
        | (s2, true) => (s2, some s2.availableProfiles)
        | (s2, false) => (s2, none)
      | p :: ps => (s, some (p :: ps))
    match afterProfiles with
    | (s2, none) => .error s2
    | (s2, some profiles) =>
      match findProfile profiles (some normalized) with
      | none => .error s2
      | some target =>
        if !(profileHasValue target) then .error s2
        else if submitOk then
          let s3 := { s2 with expectedRestartUntil := now + grace }
          .ok (recordProfileChange s3 target .selected true)
        else .error s2

/-- Result of one processProfileSelection call. -/
structure SelOutcome where
  state : SyncState
  ok : Bool
deriving DecidableEq

/-- index.js processProfileSelection: validation, optimistic update,
loadProfileByValue, and rollback with recomputed statuses on failure. -/
def processProfileSelection (s : SyncState) (profileValue : String)
    (fetch : FetchOutcome) (submitOk : Bool) (now grace : Nat) : SelOutcome :=
  if !(hasRequiredCredentials s.config) then { state := s, ok := false }
  else
    let value := stringValue profileValue
    let profile := lookupProfileForValue s.availableProfiles value
    if !(profileHasValue profile) then { state := s, ok := false }
    else
      let previousValue := s.currentProfileValue
      let s1 := { s with currentProfileValue := value }
      let s2 := { s1 with devices := updateSelections s1.config value s1.devices }
      match loadProfileByValueSel s2 value fetch submitOk now grace with
      | .ok s3 => { state := s3, ok := true }
      | .error s3 =>
        let s4 := { s3 with currentProfileValue := previousValue }
        { state := { s4 with devices := updateSelections s4.config previousValue s4.devices }
          ok := false }

/-- index.js handleProfileStandby on its non-selection branch (a requested
status of selected is routed to processProfileSelection instead). -/
def standbyOp (s : SyncState) (profileValue : String) (requestedStatus : CStatus) : SyncState :=
  let value := stringValue profileValue
  let key := profileValueKeyFromValue value
  let wasActive := profileValueKeyFromValue s.currentProfileValue == key
  let current2 := if wasActive then "" else s.currentProfileValue
  let nextStatus := if requestedStatus == .indeterminate then CStatus.indeterminate
    else .deselected
  let devs1 := updateDeviceStateByKey s.config current2 s.devices key (some nextStatus)
    (some value)
  let devs2 := if wasActive then updateSelections s.config current2 devs1 else devs1
  { s with currentProfileValue := current2, devices := devs2 }

/-- Commit step of save_settings: on success adopt the candidate; on an error
keep the already-committed config, reset the current value from it, and
reinitialize the controls (the catch branch of save_settings). -/
def saveCommit (r : TCResult) : SyncState :=
  match r.result with
  | .ok (candidate, _) => commitCandidate r candidate
  | .error _ =>
    let s1 := { r.state with
                currentProfileValue := stringValue r.state.config.profile }
    { s1 with devices := initializeSourceControl s1.config s1.currentProfileValue
                  s1.availableProfiles s1.devices }

/-- index.js save_settings (non-dry-run): commit the merged settings, gate on
credentials, testConnection with loadProfile, then commit or keep the config
and reinitialize the controls. -/
def saveSettingsOp (s : SyncState) (incoming : Config) (fetch : FetchOutcome)
    (submitOk : Bool) (submitErr : JsError) (now grace : Nat) : SyncState :=
  let normalized := normalizeSettings incoming
  let s0 := { s with config := normalized
                     currentProfileValue := stringValue normalized.profile }
  if !(hasRequiredCredentials normalized) then
    let s1 := { s0 with availableProfiles := [] }
    { s1 with devices := initializeSourceControl s1.config s1.currentProfileValue
                  s1.availableProfiles s1.devices }
  else
    saveCommit (testConnection s0 s0.config true fetch submitOk submitErr now grace)

/-- The module state right after loadConfig, before startup's first
refresh (which the refresh/save operations cover). -/
def initialState (cfg : Config) : SyncState :=
  { config := normalizeSettings cfg
    availableProfiles := []
    currentProfileValue := stringValue (normalizeSettings cfg).profile
    expectedRestartUntil := 0
    devices := [] }

/-- States the synchronizer can reach through refreshes, selections,
standby/deselect requests and credential saves. -/
inductive Reachable : SyncState → Prop
  | init (cfg : Config) : Reachable (initialState cfg)
  | refresh (s : SyncState) (fetch : FetchOutcome) :
      Reachable s → Reachable (refreshProfilesOp s fetch).1
  | select (s : SyncState) (pv : String) (fetch : FetchOutcome) (submitOk : Bool)
      (now grace : Nat) :
      Reachable s → Reachable (processProfileSelection s pv fetch submitOk now grace).state
  | standby (s : SyncState) (pv : String) (rs : CStatus) (h : rs ≠ CStatus.selected) :
      Reachable s → Reachable (standbyOp s pv rs)
  | save (s : SyncState) (incoming : Config) (fetch : FetchOutcome) (submitOk : Bool)
      (submitErr : JsError) (now grace : Nat) :
      Reachable s → Reachable (saveSettingsOp s incoming fetch submitOk submitErr now grace)

/- ### Synchronizer invariants -/

/-- The sourceControlDevices key of an entry is determined by its bound
value. -/
def KeyOk (e : String × DeviceEntry) : Prop :=
  e.1 = profileValueKeyFromValue e.2.value

/-- A selected entry is bound to the authoritative current value. -/
def SelOk (current : String) (e : String × DeviceEntry) : Prop :=
  e.2.status = CStatus.selected → e.2.value = current

def GoodDevs (current : String) (devs : List (String × DeviceEntry)) : Prop :=
  ∀ e ∈ devs, KeyOk e ∧ SelOk current e

abbrev SyncInv (s : SyncState) : Prop := GoodDevs s.currentProfileValue s.devices

theorem key_stringValue (v : String) :
    profileValueKeyFromValue (stringValue v) = profileValueKeyFromValue v := by
  simp only [profileValueKeyFromValue, stringValue_idem]

theorem determine_selected (cfg : Config) (current v : String)
    (h : determineControlStatus cfg current v = CStatus.selected) : v = current := by
  unfold determineControlStatus at h
  by_cases h1 : (!hasRequiredCredentials cfg) = true
  · rw [if_pos h1] at h
    exact absurd h (by simp)
  · rw [if_neg h1] at h
    by_cases h2 : (v == current) = true
    · exact eq_of_beq h2
    · rw [if_neg h2] at h
      exact absurd h (by simp)

theorem updateSelections_good (cfg : Config) (current : String)
    (devs : List (String × DeviceEntry)) (hK : ∀ e ∈ devs, KeyOk e) :
    GoodDevs current (updateSelections cfg current devs) := by
  intro e he
  simp only [updateSelections, List.mem_map] at he
  obtain ⟨a, ha, rfl⟩ := he
  refine ⟨?_, ?_⟩
  · show a.1 = profileValueKeyFromValue (stringValue a.2.value)
    rw [key_stringValue]
    exact hK a ha
  · intro hsel
    exact determine_selected cfg current _ hsel

theorem updateSelections_keyOk (cfg : Config) (current : String)
    (devs : List (String × DeviceEntry)) (hK : ∀ e ∈ devs, KeyOk e) :
    ∀ e ∈ updateSelections cfg current devs, KeyOk e :=
  fun e he => (updateSelections_good cfg current devs hK e he).1

theorem updateDeviceStateByKey_keyOk (cfg : Config) (current : String)
    (devs : List (String × DeviceEntry)) (key : String) (ovS : Option CStatus) (v : String)
    (hd : ∀ e ∈ devs, KeyOk e)
    (hkey : key = profileValueKeyFromValue v) :
    ∀ e ∈ updateDeviceStateByKey cfg current devs key ovS (some v), KeyOk e := by
  intro e he
  simp only [updateDeviceStateByKey, List.mem_map] at he
  obtain ⟨a, ha, rfl⟩ := he
  by_cases h : a.1 == key
  · simp only [h, if_pos rfl]
    show a.1 = profileValueKeyFromValue (stringValue v)
    rw [key_stringValue, ← hkey]
    exact eq_of_beq h
  · simp only [h]
    rw [if_neg (by simpa using h)]
    exact hd a ha

theorem updateDeviceStateByKey_good (cfg : Config) (current : String)
    (devs : List (String × DeviceEntry)) (key : String) (ovS : Option CStatus) (v : String)
    (hG : GoodDevs current devs)
    (hkey : key = profileValueKeyFromValue v)
    (hov : ∀ st, ovS = some st → st = CStatus.selected → stringValue v = current) :
    GoodDevs current (updateDeviceStateByKey cfg current devs key ovS (some v)) := by
  intro e he
  simp only [updateDeviceStateByKey, List.mem_map] at he
  obtain ⟨a, ha, rfl⟩ := he
  by_cases h : a.1 == key
  · simp only [h, if_pos rfl]
    refine ⟨?_, ?_⟩
    · show a.1 = profileValueKeyFromValue (stringValue v)
      rw [key_stringValue, ← hkey]
      exact eq_of_beq h
    · intro hsel
      match hov2 : ovS with
      | some st =>
        simp only [hov2] at hsel
        exact hov st rfl hsel
      | none =>
        simp only [hov2] at hsel
        exact determine_selected cfg current _ hsel
  · simp only [h]
    rw [if_neg (by simpa using h)]
    exact hG a ha

theorem dedupeByKey_keys (profiles : List Profile) :
    ∀ kp ∈ dedupeByKey profiles, kp.1 = profileValueKey kp.2 := by
  have h : ∀ (l : List Profile) (acc : List (String × Profile)),
      (∀ kp ∈ acc, kp.1 = profileValueKey kp.2) →
      ∀ kp ∈ l.foldl (fun acc p =>
        if acc.any (fun q => q.1 == profileValueKey p) then
          acc.map (fun q => if q.1 == profileValueKey p then (profileValueKey p, p) else q)
        else acc ++ [(profileValueKey p, p)]) acc, kp.1 = profileValueKey kp.2 := by
    intro l
    induction l with
    | nil => intro acc hacc kp hkp; exact hacc kp (by simpa using hkp)
    | cons p rest ih =>
      intro acc hacc
      rw [List.foldl_cons]
      apply ih
      intro kp hkp
      by_cases hany : acc.any (fun q => q.1 == profileValueKey p) = true
      · rw [if_pos hany, List.mem_map] at hkp
        obtain ⟨a, ha, rfl⟩ := hkp
        by_cases hq : (a.1 == profileValueKey p) = true
        · rw [if_pos hq]
        · rw [if_neg hq]
          exact hacc a ha
      · rw [if_neg hany] at hkp
        rcases List.mem_append.mp hkp with hmem | hmem
        · exact hacc _ hmem
        · rw [List.mem_singleton] at hmem
          subst hmem
          rfl
  exact h profiles [] (by intro kp hkp; simp at hkp)

theorem ensureStep_keyOk (cfg : Config) (current : String)
    (devs : List (String × DeviceEntry)) (kp : String × Profile)
    (hd : ∀ e ∈ devs, KeyOk e) (hkp : kp.1 = profileValueKey kp.2) :
    ∀ e ∈ ensureStep cfg current devs kp, KeyOk e := by
  intro e he
  unfold ensureStep at he
  by_cases hany : devs.any (fun e => e.1 == kp.1)
  · rw [if_pos hany] at he
    refine updateDeviceStateByKey_keyOk cfg current devs kp.1 none (profileValueRaw kp.2)
      hd ?_ e he
    rw [hkp]
    show profileValueKeyFromValue kp.2.value = profileValueKeyFromValue (stringValue kp.2.value)
    rw [key_stringValue]
  · rw [if_neg hany] at he
    rcases List.mem_append.mp he with h | h
    · exact hd e h
    · simp only [List.mem_singleton] at h
      subst h
      show kp.1 = profileValueKeyFromValue (stringValue (profileValueRaw kp.2))
      rw [key_stringValue]
      show kp.1 = profileValueKeyFromValue (stringValue kp.2.value)
      rw [key_stringValue]
      exact hkp

theorem foldl_ensureStep_keyOk (cfg : Config) (current : String) :
    ∀ (l : List (String × Profile)) (devs : List (String × DeviceEntry)),
      (∀ kp ∈ l, kp.1 = profileValueKey kp.2) →
      (∀ e ∈ devs, KeyOk e) →
      ∀ e ∈ l.foldl (ensureStep cfg current) devs, KeyOk e := by
  intro l
  induction l with
  | nil => intro devs _ hd e he; exact hd e (by simpa using he)
  | cons kp rest ih =>
    intro devs hl hd
    rw [List.foldl_cons]
    exact ih (ensureStep cfg current devs kp)
      (fun q hq => hl q (List.mem_cons_of_mem _ hq))
      (ensureStep_keyOk cfg current devs kp hd (hl kp (List.mem_cons_self _ _)))

theorem ensure_keyOk (cfg : Config) (current : String) (profiles : List Profile)
    (devices : List (String × DeviceEntry)) (hd : ∀ e ∈ devices, KeyOk e) :
    ∀ e ∈ ensureProfileControls cfg current profiles devices, KeyOk e := by
  unfold ensureProfileControls
  by_cases hc : (!hasRequiredCredentials cfg) = true
  · rw [if_pos hc]
    intro e he
    simp at he
  · rw [if_neg hc]
    refine foldl_ensureStep_keyOk cfg current (dedupeByKey profiles) _
      (dedupeByKey_keys profiles) ?_
    intro e he
    exact hd e (List.mem_of_mem_filter he)

theorem initialize_good (cfg : Config) (current : String) (profiles : List Profile)
    (devices : List (String × DeviceEntry)) (hd : ∀ e ∈ devices, KeyOk e) :
    GoodDevs current (initializeSourceControl cfg current profiles devices) :=
  updateSelections_good cfg current _ (ensure_keyOk cfg current profiles devices hd)

theorem recordProfileChange_good (s : SyncState) (p : Profile) (st : CStatus) (persist : Bool)
    (hK : ∀ e ∈ s.devices, KeyOk e) :
    SyncInv (recordProfileChange s p st persist) := by
  unfold recordProfileChange SyncInv
  intro e he
  simp only at he
  refine updateDeviceStateByKey_good _ _ _ _ _ _ ?_ ?_ ?_ e he
  · apply updateSelections_good
    exact ensure_keyOk _ _ _ _ hK
  · show profileValueKey p = profileValueKeyFromValue (profileValueRaw p)
    unfold profileValueKey profileValueRaw
    rw [key_stringValue]
  · intro st2 _ _
    show stringValue (profileValueRaw p) = profileValueRaw p
    exact stringValue_idem p.value

theorem testConnection_keyOk (s : SyncState) (base : Config) (lp : Bool)
    (fetch : FetchOutcome) (sOk : Bool) (serr : JsError) (now grace : Nat)
    (hK : ∀ e ∈ s.devices, KeyOk e) :
    ∀ e ∈ (testConnection s base lp fetch sOk serr now grace).state.devices, KeyOk e := by
  simp only [testConnection]
  by_cases hc : (!hasRequiredCredentials (normalizeSettings base)) = true
  · rw [if_pos hc]
    exact hK
  · rw [if_neg hc]
    split
    · exact hK
    · split
      · split
        · refine fun e he => (recordProfileChange_good _ _ .selected false ?_ e he).1
          exact hK
        · exact hK
      · exact hK

theorem testConnection_noload (s : SyncState) (base : Config)
    (fetch : FetchOutcome) (sOk : Bool) (serr : JsError) (now grace : Nat) :
    (testConnection s base false fetch sOk serr now grace).state.devices = s.devices ∧
    (testConnection s base false fetch sOk serr now grace).state.currentProfileValue =
      s.currentProfileValue := by
  simp only [testConnection]
  by_cases hc : (!hasRequiredCredentials (normalizeSettings base)) = true
  · rw [if_pos hc]
    exact ⟨rfl, rfl⟩
  · rw [if_neg hc]
    split
    · exact ⟨rfl, rfl⟩
    · exact ⟨rfl, rfl⟩

theorem commitCandidate_inv (r : TCResult) (candidate : Config)
    (hK : ∀ e ∈ r.state.devices, KeyOk e) : SyncInv (commitCandidate r candidate) := by
  unfold commitCandidate SyncInv
  exact initialize_good _ _ _ _ hK

theorem saveCommit_inv (r : TCResult) (hK : ∀ e ∈ r.state.devices, KeyOk e) :
    SyncInv (saveCommit r) := by
  unfold saveCommit
  split
  · exact commitCandidate_inv _ _ hK
  · exact initialize_good _ _ _ _ hK

theorem refreshCommit_inv (r : TCResult) (hK : ∀ e ∈ r.state.devices, KeyOk e)
    (hinv : SyncInv r.state) : SyncInv (refreshCommit r).1 := by
  unfold refreshCommit
  split
  · exact commitCandidate_inv _ _ hK
  · exact hinv

theorem refreshOp_inv (s : SyncState) (fetch : FetchOutcome) (h : SyncInv s) :
    SyncInv (refreshProfilesOp s fetch).1 := by
  unfold refreshProfilesOp
  apply refreshCommit_inv
  · exact testConnection_keyOk s s.config false fetch true ⟨"", ""⟩ 0 0
      (fun e he => (h e he).1)
  · have hn := testConnection_noload s s.config fetch true ⟨"", ""⟩ 0 0
    unfold SyncInv
    rw [hn.1, hn.2]
    exact h

theorem refreshOp_keyOk (s : SyncState) (fetch : FetchOutcome)
    (hK : ∀ e ∈ s.devices, KeyOk e) :
    ∀ e ∈ (refreshProfilesOp s fetch).1.devices, KeyOk e := by
  unfold refreshProfilesOp refreshCommit
  have hK2 := testConnection_keyOk s s.config false fetch true ⟨"", ""⟩ 0 0 hK
  split
  · unfold commitCandidate
    exact updateSelections_keyOk _ _ _ (ensure_keyOk _ _ _ _ hK2)
  · exact hK2

theorem saveOp_inv (s : SyncState) (incoming : Config) (fetch : FetchOutcome)
    (sOk : Bool) (serr : JsError) (now grace : Nat) (h : SyncInv s) :
    SyncInv (saveSettingsOp s incoming fetch sOk serr now grace) := by
  simp only [saveSettingsOp]
  by_cases hc : (!hasRequiredCredentials (normalizeSettings incoming)) = true
  · rw [if_pos hc]
    exact initialize_good _ _ _ _ (fun e he => (h e he).1)
  · rw [if_neg hc]
    refine saveCommit_inv _ (testConnection_keyOk _ _ true fetch sOk serr now grace ?_)
    exact fun e he => (h e he).1

theorem recordProfileChange_expiry (s : SyncState) (p : Profile) (st : CStatus)
    (persist : Bool) :
    (recordProfileChange s p st persist).expectedRestartUntil = s.expectedRestartUntil := rfl

theorem loadSel_ok (s : SyncState) (value : String) (fetch : FetchOutcome)
    (sOk : Bool) (now grace : Nat) (s3 : SyncState)
    (hK : ∀ e ∈ s.devices, KeyOk e)
    (h : loadProfileByValueSel s value fetch sOk now grace = .ok s3) :
    SyncInv s3 ∧ s3.expectedRestartUntil = now + grace := by
  unfold loadProfileByValueSel at h
  split at h
  · exact absurd h (by simp)
  · cases hap : s.availableProfiles with
    | nil =>
      rw [hap] at h
      rcases hro : refreshProfilesOp s fetch with ⟨s2, b⟩
      rw [hro] at h
      have hK2 : ∀ e ∈ s2.devices, KeyOk e := by
        have := refreshOp_keyOk s fetch hK
        rw [hro] at this
        exact this
      cases b with
      | false => simp at h
      | true =>
        simp only at h
        split at h
        · simp at h
        · split at h
          · simp at h
          · split at h
            · injection h with h2
              subst h2
              refine ⟨recordProfileChange_good _ _ _ _ hK2, ?_⟩
              rw [recordProfileChange_expiry]
            · simp at h
    | cons p ps =>
      rw [hap] at h
      simp only at h
      split at h
      · simp at h
      · split at h
        · simp at h
        · split at h
          · injection h with h2
            subst h2
            refine ⟨recordProfileChange_good _ _ _ _ hK, ?_⟩
            rw [recordProfileChange_expiry]
          · simp at h

theorem loadSel_error_keyOk (s : SyncState) (value : String) (fetch : FetchOutcome)
    (sOk : Bool) (now grace : Nat) (s3 : SyncState)
    (hK : ∀ e ∈ s.devices, KeyOk e)
    (h : loadProfileByValueSel s value fetch sOk now grace = .error s3) :
    ∀ e ∈ s3.devices, KeyOk e := by
  unfold loadProfileByValueSel at h
  split at h
  · injection h with h2
    subst h2
    exact hK
  · cases hap : s.availableProfiles with
    | nil =>
      rw [hap] at h
      rcases hro : refreshProfilesOp s fetch with ⟨s2, b⟩
      rw [hro] at h
      have hK2 : ∀ e ∈ s2.devices, KeyOk e := by
        have := refreshOp_keyOk s fetch hK
        rw [hro] at this
        exact this
      cases b with
      | false =>
        simp only at h
        injection h with h2
        subst h2
        exact hK2
      | true =>
        simp only at h
        split at h
        · injection h with h2
          subst h2
          exact hK2
        · split at h
          · injection h with h2
            subst h2
            exact hK2
          · split at h
            · simp at h
            · injection h with h2
              subst h2
              exact hK2
    | cons p ps =>
      rw [hap] at h
      simp only at h
      split at h
      · injection h with h2
        subst h2
        exact hK
      · split at h
        · injection h with h2
          subst h2
          exact hK
        · split at h
          · simp at h
          · injection h with h2
            subst h2
            exact hK

theorem selection_inv (s : SyncState) (pv : String) (fetch : FetchOutcome) (sOk : Bool)
    (now grace : Nat) (h : SyncInv s) :
    SyncInv (processProfileSelection s pv fetch sOk now grace).state := by
  simp only [processProfileSelection]
  by_cases hc : (!hasRequiredCredentials s.config) = true
  · rw [if_pos hc]
    exact h
  · rw [if_neg hc]
    by_cases hv : (!profileHasValue
        (lookupProfileForValue s.availableProfiles (stringValue pv))) = true
    · rw [if_pos hv]
      exact h
    · rw [if_neg hv]
      have hK2 : ∀ e ∈ (updateSelections s.config (stringValue pv) s.devices), KeyOk e :=
        updateSelections_keyOk _ _ _ (fun e he => (h e he).1)
      split
      · next s3 heq =>
        exact (loadSel_ok _ _ fetch sOk now grace s3 hK2 heq).1
      · next s3 heq =>
        exact updateSelections_good _ _ _
          (loadSel_error_keyOk _ _ fetch sOk now grace s3 hK2 heq)

theorem standby_inv (s : SyncState) (pv : String) (rs : CStatus) (h : SyncInv s) :
    SyncInv (standbyOp s pv rs) := by
  unfold standbyOp
  by_cases hw : (profileValueKeyFromValue s.currentProfileValue ==
      profileValueKeyFromValue (stringValue pv)) = true
  · simp only [hw, if_pos rfl]
    exact updateSelections_good _ _ _
      (updateDeviceStateByKey_keyOk _ _ _ _ _ _ (fun e he => (h e he).1) rfl)
  · have hw2 : (profileValueKeyFromValue s.currentProfileValue ==
        profileValueKeyFromValue (stringValue pv)) = false := by
      simpa using hw
    simp only [hw2]
    rw [if_neg (by simp), if_neg (by simp)]
    show GoodDevs s.currentProfileValue
      (updateDeviceStateByKey s.config s.currentProfileValue s.devices
        (profileValueKeyFromValue (stringValue pv))
        (some (if (rs == CStatus.indeterminate) = true then CStatus.indeterminate
               else CStatus.deselected))
        (some (stringValue pv)))
    refine updateDeviceStateByKey_good s.config s.currentProfileValue s.devices
      (profileValueKeyFromValue (stringValue pv))
      (some (if (rs == CStatus.indeterminate) = true then CStatus.indeterminate
             else CStatus.deselected))
      (stringValue pv) h rfl ?_
    intro st hst hsel
    injection hst with hst2
    rw [hsel] at hst2
    split at hst2
    · exact absurd hst2 (by simp)
    · exact absurd hst2 (by simp)

/- ### Status-consistent device sets (the shape every reconcile leaves) -/

/-- Devices whose stored values are trimmed and whose statuses are exactly
what determineControlStatus recomputes: the state
updateSourceControlSelections leaves behind. -/
abbrev ConsistentDevs (cfg : Config) (current : String)
    (devs : List (String × DeviceEntry)) : Prop :=
  ∀ e ∈ devs, e.2.value = stringValue e.2.value ∧
    e.2.status = determineControlStatus cfg current e.2.value

theorem updateSelections_cons (cfg : Config) (current : String) (a : String × DeviceEntry)
    (t : List (String × DeviceEntry)) :
    updateSelections cfg current (a :: t) =
      (a.1, { value := stringValue a.2.value
              status := determineControlStatus cfg current (stringValue a.2.value) }) ::
        updateSelections cfg current t := rfl

theorem updateSelections_of_consistent (cfg : Config) (current : String) :
    ∀ (devs : List (String × DeviceEntry)), ConsistentDevs cfg current devs →
      updateSelections cfg current devs = devs := by
  intro devs
  induction devs with
  | nil => intro _; rfl
  | cons a t ih =>
    intro h
    rw [updateSelections_cons, ih (fun e he => h e (List.mem_cons_of_mem _ he))]
    obtain ⟨hv, hs⟩ := h a (List.mem_cons_self _ _)
    rw [← hv, ← hs]

theorem updateSelections_updateSelections (cfg : Config) (c2 c1 : String)
    (devs : List (String × DeviceEntry)) :
    updateSelections cfg c2 (updateSelections cfg c1 devs) =
      updateSelections cfg c2 devs := by
  induction devs with
  | nil => rfl
  | cons a t ih =>
    rw [updateSelections_cons, updateSelections_cons, updateSelections_cons, ih]
    simp only [stringValue_idem]

/-- When the profile cache is non-empty, every throw inside loadProfileByValue
on the selection path hands back the state it was given. -/
theorem loadSel_error_nonempty (s : SyncState) (value : String) (fetch : FetchOutcome)
    (sOk : Bool) (now grace : Nat) (s3 : SyncState)
    (hne : s.availableProfiles ≠ [])
    (h : loadProfileByValueSel s value fetch sOk now grace = .error s3) : s3 = s := by
  simp only [loadProfileByValueSel] at h
  split at h
  · injection h with h2
    exact h2.symm
  · cases hap : s.availableProfiles with
    | nil => exact absurd hap hne
    | cons p ps =>
      rw [hap] at h
      simp only at h
      split at h
      · injection h with h2
        exact h2.symm
      · split at h
        · injection h with h2
          exact h2.symm
        · split at h
          · simp at h
          · injection h with h2
            exact h2.symm

theorem reachable_inv (s : SyncState) (h : Reachable s) : SyncInv s := by
  induction h with
  | init cfg =>
    intro e he
    simp [initialState] at he
  | refresh s fetch _ ih => exact refreshOp_inv s fetch ih
  | select s pv fetch sOk now grace _ ih => exact selection_inv s pv fetch sOk now grace ih
  | standby s pv rs _ _ ih => exact standby_inv s pv rs ih
  | save s incoming fetch sOk serr now grace _ ih =>
    exact saveOp_inv s incoming fetch sOk serr now grace ih

/-- C1 (amended): a Selection whose load request fails rolls the
authoritative current-profile back to its pre-selection value and recomputes
every endpoint status from the restored value; when the pre-selection
statuses were themselves the recomputed ones (no pending manual override) and
the profile cache was non-empty (so no refresh intervened), the whole
synchronizer state is restored exactly. -/
theorem C1_selection_rollback (s : SyncState) (pv : String) (fetch : FetchOutcome)
    (submitOk : Bool) (now grace : Nat)
    (hcons : ConsistentDevs s.config s.currentProfileValue s.devices)
    (hne : s.availableProfiles ≠ [])
    (hfail : (processProfileSelection s pv fetch submitOk now grace).ok = false) :
    (processProfileSelection s pv fetch submitOk now grace).state = s := by
  simp only [processProfileSelection] at hfail ⊢
  by_cases hc : (!hasRequiredCredentials s.config) = true
  · rw [if_pos hc]
  · rw [if_neg hc] at hfail ⊢
    by_cases hv : (!profileHasValue
        (lookupProfileForValue s.availableProfiles (stringValue pv))) = true
    · rw [if_pos hv]
    · rw [if_neg hv] at hfail ⊢
      split
      · next s3 heq =>
        rw [heq] at hfail
        simp at hfail
      · next s3 heq =>
        have h3 : s3 = { s with
            currentProfileValue := stringValue pv
            devices := updateSelections s.config (stringValue pv) s.devices } := by
          refine loadSel_error_nonempty _ _ fetch submitOk now grace s3 ?_ heq
          exact hne
        subst h3
        show ({ config := s.config
                availableProfiles := s.availableProfiles
                currentProfileValue := s.currentProfileValue
                expectedRestartUntil := s.expectedRestartUntil
                devices := updateSelections s.config s.currentProfileValue
                  (updateSelections s.config (stringValue pv) s.devices) } : SyncState) = s
        rw [updateSelections_updateSelections,
          updateSelections_of_consistent s.config s.currentProfileValue s.devices hcons]

/-- C1 witness: a concrete failed selection of "flat" from a refreshed
two-profile state restores that state exactly. -/
theorem C1_selection_rollback_witness :
    (processProfileSelection
        (refreshProfilesOp (initialState ⟨"h", 8088, "u", "p", "zen"⟩)
          (.ok [⟨"zen", "Zen"⟩, ⟨"flat", "Flat"⟩])).1
        "flat" (.fail ⟨"", ""⟩) false 1000 10000).state =
      (refreshProfilesOp (initialState ⟨"h", 8088, "u", "p", "zen"⟩)
          (.ok [⟨"zen", "Zen"⟩, ⟨"flat", "Flat"⟩])).1 :=
  C1_selection_rollback _ "flat" (.fail ⟨"", ""⟩) false 1000 10000
    (by decide) (by decide) (by decide)

/-- C1 counterexample: after a standby request parks the "flat" endpoint at
indeterminate, a failed Selection of "flat" leaves that endpoint deselected —
not equal to its value from immediately before the Selection — because the
rollback recomputes statuses instead of restoring them. -/
theorem C1_counterexample :
    ((standbyOp (refreshProfilesOp (initialState ⟨"h", 8088, "u", "p", "zen"⟩)
          (.ok [⟨"zen", "Zen"⟩, ⟨"flat", "Flat"⟩])).1
        "flat" CStatus.indeterminate).devices =
      [("zen", ⟨"zen", CStatus.selected⟩), ("flat", ⟨"flat", CStatus.indeterminate⟩)]) ∧
    ((processProfileSelection
        (standbyOp (refreshProfilesOp (initialState ⟨"h", 8088, "u", "p", "zen"⟩)
            (.ok [⟨"zen", "Zen"⟩, ⟨"flat", "Flat"⟩])).1
          "flat" CStatus.indeterminate)
        "flat" (.fail ⟨"", ""⟩) false 1000 10000).ok = false) ∧
    ((processProfileSelection
        (standbyOp (refreshProfilesOp (initialState ⟨"h", 8088, "u", "p", "zen"⟩)
            (.ok [⟨"zen", "Zen"⟩, ⟨"flat", "Flat"⟩])).1
          "flat" CStatus.indeterminate)
        "flat" (.fail ⟨"", ""⟩) false 1000 10000).state.devices =
      [("zen", ⟨"zen", CStatus.selected⟩), ("flat", ⟨"flat", CStatus.deselected⟩)]) := by
  decide

/-- C2 (amended): in every reachable synchronizer state, at most one endpoint
is selected, and a selected endpoint's bound value equals the authoritative
current-profile value. -/
theorem C2_selection_invariant (s : SyncState) (h : Reachable s) :
    (∀ e1 ∈ s.devices, ∀ e2 ∈ s.devices,
        e1.2.status = CStatus.selected → e2.2.status = CStatus.selected → e1 = e2) ∧
    (∀ e ∈ s.devices, e.2.status = CStatus.selected →
        e.2.value = s.currentProfileValue) := by
  have hinv := reachable_inv s h
  refine ⟨?_, fun e he hs => (hinv e he).2 hs⟩
  intro e1 h1 e2 h2 hs1 hs2
  have hval : e1.2.value = e2.2.value := by
    rw [(hinv e1 h1).2 hs1, (hinv e2 h2).2 hs2]
  have hkey : e1.1 = e2.1 := by
    rw [(hinv e1 h1).1, (hinv e2 h2).1, hval]
  have hst : e1.2.status = e2.2.status := by rw [hs1, hs2]
  cases e1 with
  | mk k1 d1 =>
    cases e2 with
    | mk k2 d2 =>
      cases d1 with
      | mk v1 st1 =>
        cases d2 with
        | mk v2 st2 =>
          dsimp only at hval hkey hst
          rw [hkey, hval, hst]

/-- C2 witness: the invariant instantiated at a concrete reachable state
(a refresh that discovered two profiles). -/
theorem C2_selection_invariant_witness :
    (∀ e1 ∈ ((refreshProfilesOp (initialState ⟨"h", 8088, "u", "p", "zen"⟩)
        (.ok [⟨"zen", "Zen"⟩, ⟨"flat", "Flat"⟩])).1).devices,
      ∀ e2 ∈ ((refreshProfilesOp (initialState ⟨"h", 8088, "u", "p", "zen"⟩)
          (.ok [⟨"zen", "Zen"⟩, ⟨"flat", "Flat"⟩])).1).devices,
        e1.2.status = CStatus.selected → e2.2.status = CStatus.selected → e1 = e2) ∧
    (∀ e ∈ ((refreshProfilesOp (initialState ⟨"h", 8088, "u", "p", "zen"⟩)
        (.ok [⟨"zen", "Zen"⟩, ⟨"flat", "Flat"⟩])).1).devices,
      e.2.status = CStatus.selected →
        e.2.value = ((refreshProfilesOp (initialState ⟨"h", 8088, "u", "p", "zen"⟩)
          (.ok [⟨"zen", "Zen"⟩, ⟨"flat", "Flat"⟩])).1).currentProfileValue) :=
  C2_selection_invariant _
    (Reachable.refresh _ _ (Reachable.init ⟨"h", 8088, "u", "p", "zen"⟩))

/-- C2 counterexample: a refresh whose scraped list contains an
empty-identifier option reaches a state with no active profile (empty
authoritative value) in which one endpoint — the one bound to the empty
identifier — is nevertheless selected, so "zero endpoints are selected when
no profile is active" fails. -/
theorem C2_counterexample :
    ((refreshProfilesOp (initialState ⟨"h", 8088, "u", "p", ""⟩)
        (.ok [⟨"", "x"⟩])).1.currentProfileValue = "") ∧
    ((refreshProfilesOp (initialState ⟨"h", 8088, "u", "p", ""⟩)
        (.ok [⟨"", "x"⟩])).1.devices =
      [("__default__", ⟨"", CStatus.selected⟩)]) := by
  decide

theorem request_retried (c : Client) (method path : String) (md5 : String → String)
    (cn1 cn2 : String) (net1 net2 : HttpResponse) :
    (request c method path md5 cn1 cn2 net1 net2).retried =
      (net1.statusCode == 401 && digestOffered net1) := by
  simp only [request]
  by_cases hcond : (net1.statusCode == 401 && digestOffered net1) = true
  · rw [if_pos hcond]
    cases hwa : net1.wwwAuthenticate with
    | some h => exact hcond.symm
    | none =>
      exfalso
      have hoff : digestOffered net1 = false := by simp [digestOffered, hwa]
      rw [hoff] at hcond
      simp at hcond
  · rw [if_neg hcond]
    have h2 : (net1.statusCode == 401 && digestOffered net1) = false := by
      simpa using hcond
    exact h2.symm

theorem request_response (c : Client) (method path : String) (md5 : String → String)
    (cn1 cn2 : String) (net1 net2 : HttpResponse) :
    (request c method path md5 cn1 cn2 net1 net2).response =
      (if (net1.statusCode == 401 && digestOffered net1) = true then net2 else net1) := by
  simp only [request]
  by_cases hcond : (net1.statusCode == 401 && digestOffered net1) = true
  · rw [if_pos hcond, if_pos hcond]
    cases hwa : net1.wwwAuthenticate with
    | some h => rfl
    | none =>
      exfalso
      have hoff : digestOffered net1 = false := by simp [digestOffered, hwa]
      rw [hoff] at hcond
      simp at hcond
  · rw [if_neg hcond, if_neg hcond]

theorem request_sentAuth2 (c : Client) (method path : String) (md5 : String → String)
    (cn1 cn2 : String) (net1 net2 : HttpResponse) (h : String)
    (hwa : net1.wwwAuthenticate = some h)
    (hcond : (net1.statusCode == 401 && digestOffered net1) = true) :
    (request c method path md5 cn1 cn2 net1 net2).sentAuth2 =
      (buildDigestHeader md5 c.username c.password method path cn2
        (some (parseDigest h))).1 := by
  simp only [request]
  rw [if_pos hcond, hwa]

theorem parseDigest_nc (h : String) : (parseDigest h).nc = 0 := by
  simp [parseDigest]

theorem buildDigestHeader_parts (md5 : String → String)
    (username password method uri cnonce : String)
    (d : Digest) (hn : d.nonce ≠ "") :
    ∃ parts, (buildDigestHeader md5 username password method uri cnonce (some d)).1 =
        some parts ∧
      parts.ncStr = padStart8 (hexStr (d.nc + 1)) := by
  simp only [buildDigestHeader]
  rw [if_neg (show ¬(d.nonce == "") = true by simpa using hn)]
  by_cases hq : (d.qop != "") = true
  · rw [if_pos hq]
    exact ⟨_, rfl, rfl⟩
  · rw [if_neg hq]
    exact ⟨_, rfl, rfl⟩

theorem buildDigestHeader_emptyNonce (md5 : String → String)
    (username password method uri cnonce : String)
    (d : Digest) (hn : d.nonce = "") :
    (buildDigestHeader md5 username password method uri cnonce (some d)).1 = none := by
  simp [buildDigestHeader, hn]

theorem friendly_401 (cfg : Config)
    (hcfg : hasRequiredCredentials (normalizeSettings cfg) = true) :
    friendlyErrorMessage ⟨"", "Failed to load profile form (401)."⟩ cfg =
      "Authentication failed. Verify HQPlayer username and password." := by
  simp only [friendlyErrorMessage]
  rw [if_neg (by simp [hcfg])]
  rw [if_neg (by decide), if_neg (by decide), if_neg (by decide)]
  rw [if_pos (by decide)]

/-- C4: a 401 carrying a Digest challenge triggers exactly one retry of the
same request with a freshly computed Authorization whose counter restarts at
nc = 00000001; the retry's response — even another 401 — is handed back
without further retries, a 401 after the retry surfaces as an authentication
failure, and parseDigest unquotes quoted values, ignores unknown fields and
resets the counter. -/
theorem C4_digest_retry_once (c : Client) (method path : String) (md5 : String → String)
    (cn1 cn2 : String) (net1 net2 : HttpResponse) (cfg : Config)
    (hcfg : hasRequiredCredentials (normalizeSettings cfg) = true) :
    ((request c method path md5 cn1 cn2 net1 net2).retried =
        (net1.statusCode == 401 && digestOffered net1)) ∧
    ((request c method path md5 cn1 cn2 net1 net2).response =
      (if (net1.statusCode == 401 && digestOffered net1) = true then net2 else net1)) ∧
    (∀ h, (parseDigest h).nc = 0) ∧
    (parseDigest "Digest realm=\"R\", nonce=\"N\", foo=bar, qop=auth, opaque=\"O\"" =
      ⟨"R", "N", "auth", "O", "MD5", 0⟩) ∧
    (∀ h, net1.wwwAuthenticate = some h →
      (net1.statusCode == 401 && digestOffered net1) = true →
      ((parseDigest h).nonce ≠ "" →
        ∃ parts, (request c method path md5 cn1 cn2 net1 net2).sentAuth2 = some parts ∧
          parts.ncStr = "00000001") ∧
      ((parseDigest h).nonce = "" →
        (request c method path md5 cn1 cn2 net1 net2).sentAuth2 = none)) ∧
    ((net1.statusCode == 401 && digestOffered net1) = true → net2.statusCode = 401 →
      fetchFormError (request c method path md5 cn1 cn2 net1 net2).response =
        some "Failed to load profile form (401)." ∧
      friendlyErrorMessage ⟨"", "Failed to load profile form (401)."⟩ cfg =
        "Authentication failed. Verify HQPlayer username and password.") := by
  refine ⟨request_retried c method path md5 cn1 cn2 net1 net2,
    request_response c method path md5 cn1 cn2 net1 net2,
    parseDigest_nc, by decide, ?_, ?_⟩
  · intro h hwa hcond
    rw [request_sentAuth2 c method path md5 cn1 cn2 net1 net2 h hwa hcond]
    constructor
    · intro hn
      obtain ⟨parts, hb, hnc⟩ :=
        buildDigestHeader_parts md5 c.username c.password method path cn2 (parseDigest h) hn
      refine ⟨parts, hb, ?_⟩
      rw [hnc, parseDigest_nc]
      decide
    · intro hn
      exact buildDigestHeader_emptyNonce md5 c.username c.password method path cn2
        (parseDigest h) hn
  · intro hcond h401
    rw [request_response c method path md5 cn1 cn2 net1 net2, if_pos hcond]
    refine ⟨?_, friendly_401 cfg hcfg⟩
    simp only [fetchFormError, h401]
    decide

/-- C4 witness: a concrete 401-with-Digest first response followed by a 401
retry response. -/
theorem C4_digest_retry_once_witness :
    (request ⟨"u", "pw", [], none⟩ "GET" "/config/profile/load"
        (fun s => s) "c1" "c2"
        ⟨401, some "Digest realm=\"R\", nonce=\"N\", qop=auth", [], ""⟩
        ⟨401, some "Digest realm=\"R\", nonce=\"N2\", qop=auth", [], ""⟩).retried =
      ((401 : Nat) == 401 &&
        digestOffered ⟨401, some "Digest realm=\"R\", nonce=\"N\", qop=auth", [], ""⟩) :=
  (C4_digest_retry_once ⟨"u", "pw", [], none⟩ "GET" "/config/profile/load"
    (fun s => s) "c1" "c2"
    ⟨401, some "Digest realm=\"R\", nonce=\"N\", qop=auth", [], ""⟩
    ⟨401, some "Digest realm=\"R\", nonce=\"N2\", qop=auth", [], ""⟩
    ⟨"h", 8088, "u", "p", ""⟩ (by decide)).1

/-- The first qop directive of the challenge, as buildDigestHeader picks it. -/
def firstQop (qop : String) : String :=
  jsTrim (((splitOnChar ',' qop.data []).map String.mk).headD "")

theorem buildDigestHeader_some (md5 : String → String) (u pw m uri cn : String) (d : Digest)
    (hn : d.nonce ≠ "")
    (hq : d.qop ≠ "" → firstQop d.qop ≠ "") :
    ∃ parts, buildDigestHeader md5 u pw m uri cn (some d) =
        (some parts, some { d with nc := d.nc + 1 }) ∧
      parts.ncStr = padStart8 (hexStr (d.nc + 1)) ∧
      parts.response = rfcDigestResponse md5 u d.realm pw d.nonce
        (padStart8 (hexStr (d.nc + 1))) cn (firstQop d.qop) m uri d.algorithm := by
  simp only [buildDigestHeader]
  rw [if_neg (show ¬(d.nonce == "") = true by simpa using hn)]
  by_cases hqe : (d.qop != "") = true
  · rw [if_pos hqe]
    refine ⟨_, rfl, rfl, ?_⟩
    have hne : firstQop d.qop ≠ "" := hq (by simpa using hqe)
    have hcond : (firstQop d.qop != "") = true := by simpa using hne
    unfold rfcDigestResponse
    rw [if_pos hcond]
    rfl
  · rw [if_neg hqe]
    refine ⟨_, rfl, rfl, ?_⟩
    have hq0 : d.qop = "" := by simpa using hqe
    unfold rfcDigestResponse
    rw [hq0]
    have hcond : ¬((firstQop "") != "") = true := by decide
    rw [if_neg hcond]

theorem digestSequence_spec (md5 : String → String) (u pw m uri : String)
    (cnonces : List String) (d : Digest)
    (hn : d.nonce ≠ "") (hq : d.qop ≠ "" → firstQop d.qop ≠ "") :
    (digestSequence md5 u pw m uri cnonces d).length = cnonces.length ∧
    ∀ k, k < cnonces.length →
      ∃ parts cn, (digestSequence md5 u pw m uri cnonces d).get? k = some parts ∧
        cnonces.get? k = some cn ∧
        parts.ncStr = padStart8 (hexStr (d.nc + k + 1)) ∧
        parts.response = rfcDigestResponse md5 u d.realm pw d.nonce
          (padStart8 (hexStr (d.nc + k + 1))) cn (firstQop d.qop) m uri d.algorithm := by
  induction cnonces generalizing d with
  | nil =>
    refine ⟨rfl, ?_⟩
    intro k hk
    simp at hk
  | cons cn rest ih =>
    obtain ⟨parts, hbuild, hnc, hresp⟩ := buildDigestHeader_some md5 u pw m uri cn d hn hq
    have ihd := ih { d with nc := d.nc + 1 } hn hq
    constructor
    · simp only [digestSequence, hbuild]
      simp [ihd.1]
    · intro k hk
      cases k with
      | zero =>
        refine ⟨parts, cn, ?_, rfl, ?_, ?_⟩
        · simp [digestSequence, hbuild]
        · simpa using hnc
        · simpa using hresp
      | succ k2 =>
        obtain ⟨parts2, cn2, hg, hcn, hnc2, hresp2⟩ := ihd.2 k2 (by simpa using hk)
        have harith : d.nc + 1 + k2 + 1 = d.nc + (k2 + 1) + 1 := by omega
        refine ⟨parts2, cn2, ?_, ?_, ?_, ?_⟩
        · simp only [digestSequence, hbuild]
          simpa using hg
        · simpa using hcn
        · rw [hnc2, harith]
        · rw [hresp2, harith]

/-- C5: under one cached challenge with a fresh counter, the k-th
Authorization embeds nc = k as an 8-hex-digit zero-padded string (values
1..N in order) and its response digest equals the RFC 2617 definition, for
every abstract hash function and every sequence of client nonces. -/
theorem C5_nonce_counter (md5 : String → String)
    (username password method uri : String) (cnonces : List String) (d : Digest)
    (hn : d.nonce ≠ "") (h0 : d.nc = 0)
    (hq : d.qop ≠ "" → firstQop d.qop ≠ "") :
    (digestSequence md5 username password method uri cnonces d).length =
      cnonces.length ∧
    ∀ k, k < cnonces.length →
      ∃ parts cn,
        (digestSequence md5 username password method uri cnonces d).get? k =
          some parts ∧
        cnonces.get? k = some cn ∧
        parts.ncStr = padStart8 (hexStr (k + 1)) ∧
        parts.response = rfcDigestResponse md5 username d.realm password d.nonce
          (padStart8 (hexStr (k + 1))) cn (firstQop d.qop) method uri d.algorithm := by
  have h := digestSequence_spec md5 username password method uri cnonces d hn hq
  rw [h0] at h
  simpa using h

/-- C5 witness: three requests under a qop=auth challenge carry nc values
00000001, 00000002, 00000003. -/
theorem C5_nonce_counter_witness :
    (digestSequence (fun s => "H(" ++ s ++ ")") "u" "pw" "GET" "/config/profile/load"
      ["c1", "c2", "c3"] ⟨"r", "n1", "auth", "", "MD5", 0⟩).length = 3 :=
  (C5_nonce_counter (fun s => "H(" ++ s ++ ")") "u" "pw" "GET" "/config/profile/load"
    ["c1", "c2", "c3"] ⟨"r", "n1", "auth", "", "MD5", 0⟩
    (by decide) (by decide) (by decide)).1

/-- C6 counterexample: on [{value "a", title "zen"}, {value "zen", title "b"}]
a request for "zen" resolves — in both the extension's findProfile and the
CLI resolver — to the first entry, whose title matches, not to the later
entry whose identifier matches: an identifier match does not take precedence
over an earlier title match. -/
theorem C6_counterexample :
    findProfile [⟨"a", "zen"⟩, ⟨"zen", "b"⟩] (some "zen") = some ⟨"a", "zen"⟩ ∧
    switchResolve [⟨"a", "zen"⟩, ⟨"zen", "b"⟩] (some "zen") = some ⟨"a", "zen"⟩ ∧
    (⟨"a", "zen"⟩ : Profile) ≠ ⟨"zen", "b"⟩ := by
  decide

/-- C6 (amended): after trimming, an empty or whitespace-only requested
identifier counts as absent in the CLI resolver (fallback), while the
extension's findProfile maps it to the first profile bound to an empty
identifier; otherwise the search is case-insensitive and a single
left-to-right pass returns the first profile in original server order whose
identifier or title matches. -/
theorem C6_resolution_order :
    (∀ (ps : List Profile) (v : String), jsTrim v = "" →
      findProfile ps (some v) = ps.find? (fun entry => entry.value == "")) ∧
    (∀ (ps : List Profile) (v : String), jsTrim v = "" →
      switchResolve ps (some v) = switchResolve ps none) ∧
    (∀ (ps : List Profile) (v : String), jsTrim v ≠ "" →
      findProfile ps (some v) =
        ps.find? (entryValueOrTitleMatch (lowerStr (jsTrim v)))) ∧
    (∀ (ps : List Profile) (v w : String), jsTrim v ≠ "" → jsTrim w ≠ "" →
      lowerStr (jsTrim v) = lowerStr (jsTrim w) →
      findProfile ps (some v) = findProfile ps (some w)) ∧
    (findProfile [⟨"zen", ""⟩] (some "ZEN") = some ⟨"zen", ""⟩) := by
  refine ⟨?_, ?_, ?_, ?_, by decide⟩
  · intro ps v hv
    simp [findProfile, hv]
  · intro ps v hv
    simp [switchResolve, normalizeProfileValue, hv]
  · intro ps v hv
    have hv2 : (jsTrim v == "") = false := by simpa using hv
    simp [findProfile, hv2]
  · intro ps v w hv hw hvw
    have hv2 : (jsTrim v == "") = false := by simpa using hv
    have hw2 : (jsTrim w == "") = false := by simpa using hw
    simp only [findProfile, hv2, Bool.false_eq_true, if_false, hw2]
    rw [hvw]

/-- C6 witness: a whitespace-only request maps to the empty-identifier
search, and the search is case-insensitive. -/
theorem C6_resolution_order_witness :
    (findProfile [⟨"zen", "Zen"⟩] (some "  ") =
      [(⟨"zen", "Zen"⟩ : Profile)].find? (fun entry => entry.value == "")) ∧
    (findProfile [⟨"zen", "Zen"⟩] (some "ZEN") =
      findProfile [⟨"zen", "Zen"⟩] (some "zen")) :=
  ⟨C6_resolution_order.1 [⟨"zen", "Zen"⟩] "  " (by decide),
   C6_resolution_order.2.2.2.1 [⟨"zen", "Zen"⟩] "ZEN" "zen"
     (by decide) (by decide) (by decide)⟩

/-- C7 counterexample: with the raw scraped list [{Default}] the usable set
is empty, yet the extension's testConnection resolves the placeholder via
its raw-list fallback and attempts the load — no resolution failure and no
skipped load. -/
theorem C7_counterexample :
    usableFilter [⟨"Default", "Default"⟩] = [] ∧
    (testConnection (initialState ⟨"h", 8088, "u", "p", ""⟩) ⟨"h", 8088, "u", "p", ""⟩
        true (.ok [⟨"Default", "Default"⟩]) true ⟨"", ""⟩ 0 5).loadAttempted = true := by
  decide

/-- C7 (amended): the CLI resolver falls back to the usable profile whose
identifier is "sda" case-insensitively, else the first usable profile, and
fails with no load attempted when the usable set is empty; the extension's
testConnection instead applies the fallback over the raw unfiltered list —
selecting a placeholder when only placeholders exist — and proceeds without
an error or a load only when the raw list itself is empty. -/
theorem C7_fallback :
    (∀ (ps : List Profile) (req : Option String), usableFilter ps = [] →
      switchResolve ps req = none) ∧
    (switchResolve [⟨"classical", ""⟩, ⟨"sda", ""⟩, ⟨"zen", ""⟩] none =
      some ⟨"sda", ""⟩) ∧
    ((testConnection (initialState ⟨"h", 8088, "u", "p", ""⟩) ⟨"h", 8088, "u", "p", ""⟩
        true (.ok []) true ⟨"", ""⟩ 0 5).loadAttempted = false) ∧
    ((testConnection (initialState ⟨"h", 8088, "u", "p", ""⟩) ⟨"h", 8088, "u", "p", ""⟩
        true (.ok [⟨"Default", "Default"⟩]) true ⟨"", ""⟩ 0 5).result =
      .ok (⟨"h", 8088, "u", "p", "Default"⟩, some ⟨"Default", "Default"⟩)) := by
  refine ⟨?_, by decide, by decide, by decide⟩
  intro ps req h
  simp only [switchResolve, h]
  cases normalizeProfileValue req with
  | none => simp [switchFind]
  | some d => simp [switchFind]

/-- C7 witness: a list holding only the placeholder resolves to nothing in
the CLI resolver. -/
theorem C7_fallback_witness :
    switchResolve [⟨"Default", "x"⟩] (some "zen") = none :=
  C7_fallback.1 [⟨"Default", "x"⟩] (some "zen") (by decide)

/-- C8: scrape considers only the options inside the first select named
profile; identifier = the non-empty value attribute else the trimmed inner
text; title = the whitespace-collapsed trimmed inner text, else the
identifier, else the "[default]" placeholder; on the spec's example the
usable profiles are exactly [{identifier "zen", title "Zen Mode"}]. -/
theorem C8_scrape_profiles :
    (parseProfiles "<select name=\"profile\"><option value=\"\">Default</option><option value=\"zen\">Zen Mode</option></select>" =
      [⟨"Default", "Default"⟩, ⟨"zen", "Zen Mode"⟩]) ∧
    (usableFilter (parseProfiles "<select name=\"profile\"><option value=\"\">Default</option><option value=\"zen\">Zen Mode</option></select>") =
      [⟨"zen", "Zen Mode"⟩]) ∧
    (parseProfiles "<select name=\"q\"><option value=\"x\">X</option></select><select name=\"profile\"><option> A  B </option></select><select name=\"profile\"><option value=\"z\">Z</option></select>" =
      [⟨"A B", "A B"⟩]) ∧
    (parseProfiles "<select name='profile'><option value=\"\"></option></select>" =
      [⟨"", "[default]"⟩]) ∧
    (∀ html, findSelectContent html.data = none → parseProfiles html = []) := by
  refine ⟨by decide, by decide, by decide, by decide, ?_⟩
  intro html h
  simp [parseProfiles, h]

/-- C8 witness: a document without a profile select scrapes to no
profiles. -/
theorem C8_scrape_profiles_witness :
    parseProfiles "<p>no select here</p>" = [] :=
  C8_scrape_profiles.2.2.2.2 "<p>no select here</p>" (by decide)

/-- C9 counterexample: getAttribute itself tolerates an unquoted value for
the name attribute, but the hidden-input scan requires the name attribute to
be quoted — an input with type hidden and an unquoted name contributes
nothing, so attribute extraction "including the name attribute" does not
tolerate unquoted values. -/
theorem C9_counterexample :
    getAttribute "<input type=\"hidden\" name=tok value=\"v\">" "name" = "tok" ∧
    parseHiddenInputs "<input type=\"hidden\" name=tok value=\"v\">" = [] := by
  decide

/-- C9 (amended): the hidden-field scrape maps name → value for every input
whose type is hidden or whose quoted name is the anti-forgery token "_xsrf",
with "" when the value attribute is absent; getAttribute — used for the type
and value attributes — accepts double-quoted, single-quoted and unquoted
values, but the name attribute itself must be quoted for the input to be
considered at all. -/
theorem C9_hidden_inputs :
    (parseHiddenInputs "<input type=\"hidden\" name=\"a\" value=\"1\"><input type=\"text\" name=\"_xsrf\" value='t2'><input name=\"b\" type=hidden><input type=\"text\" name=\"c\" value=\"x\">" =
      [("a", "1"), ("_xsrf", "t2"), ("b", "")]) ∧
    (getAttribute "<input value=\"dq\">" "value" = "dq") ∧
    (getAttribute "<input value='sq'>" "value" = "sq") ∧
    (getAttribute "<input value=uq >" "value" = "uq") ∧
    (parseHiddenInputs "<input type=hidden name=tok2 value=\"v\">" = []) := by
  set_option maxRecDepth 40000 in decide

/-- C10 counterexample: a successful refresh-with-load at time 5000 with
grace 10000 leaves the grace window open until 15000 — not cleared to 0 —
and a connectivity error observed just afterwards is downgraded rather than
surfaced. -/
theorem C10_counterexample :
    ((testConnection (initialState ⟨"h", 8088, "u", "p", "zen"⟩)
        ⟨"h", 8088, "u", "p", "zen"⟩ true (.ok [⟨"zen", "Zen"⟩]) true ⟨"", ""⟩
        5000 10000).state.expectedRestartUntil = 15000) ∧
    normalizeStatus 15000 5001 "Cannot reach HQPlayer at h:8088." true =
      (waitingForRestartMessage, false) := by
  decide

set_option maxHeartbeats 2000000 in
/-- C10 (amended): a successful profile-list fetch clears the grace window
(expiry 0); it stays cleared when no load follows or the load fails, but a
successful load immediately re-opens the window to now + grace. -/
theorem C10_grace_reset (s : SyncState) (base : Config) (ps : List Profile)
    (sOk : Bool) (serr : JsError) (now grace : Nat)
    (hc : (!hasRequiredCredentials (normalizeSettings base)) = false) :
    ((testConnection s base false (.ok ps) sOk serr now grace).state.expectedRestartUntil
        = 0) ∧
    ((testConnection s base true (.ok ps) true serr now grace).state.expectedRestartUntil =
      (if (testConnection s base true (.ok ps) true serr now grace).loadAttempted
        then now + grace else 0)) ∧
    ((testConnection s base true (.ok ps) false serr now grace).state.expectedRestartUntil
        = 0) := by
  have hcn : ¬ (!hasRequiredCredentials (normalizeSettings base)) = true := by simp [hc]
  refine ⟨?_, ?_, ?_⟩
  · simp only [testConnection]
    rw [if_neg hcn]
  · simp only [testConnection]
    rw [if_neg hcn]
    cases hsel : tcSelect ps (normalizeSettings base).profile with
    | none => rfl
    | some p => simp [recordProfileChange_expiry]
  · simp only [testConnection]
    rw [if_neg hcn]
    cases hsel : tcSelect ps (normalizeSettings base).profile with
    | none => rfl
    | some p => rfl

/-- C10 witness: a concrete refresh without a load clears the window. -/
theorem C10_grace_reset_witness :
    (testConnection (initialState ⟨"h", 8088, "u", "p", "zen"⟩)
      ⟨"h", 8088, "u", "p", "zen"⟩ false (.ok [⟨"zen", "Zen"⟩]) true ⟨"", ""⟩
      5000 10000).state.expectedRestartUntil = 0 :=
  (C10_grace_reset (initialState ⟨"h", 8088, "u", "p", "zen"⟩)
    ⟨"h", 8088, "u", "p", "zen"⟩ [⟨"zen", "Zen"⟩] true ⟨"", ""⟩ 5000 10000
    (by decide)).1

end HQP
